import Mathlib

/-!
Formal model of the date-normalization and result-ranking pipeline of the
VAIS/SERP evaluation repository.

Embedded code:
* `convert_to_human_readable_date` from `src/vais/search.py`, including a
  faithful model of the CPython `datetime.strptime` regular-expression
  matcher for the two format families the function uses, of Python `int()`
  on strings (ASCII fragment), of `datetime` subtraction with its
  `OverflowError` range check, and of glibc `strftime("%Y-%m-%d")`
  (month and day zero-padded to two digits, year printed as an unpadded
  decimal numeral).
* `load_and_combine_csv`, `filter_and_sort_dataframe` and `rank_dataframe`
  from `src/eval/consolidate.py`, over a row model of the pandas DataFrame.

All definitions are executable and use structural recursion only.
-/

/-! ## Characters and digits -/

/-- ASCII whitespace, as stripped by Python `int()` on strings and as matched
by the ASCII fragment of the regex class `\s`.  (Python also accepts a few
Unicode space characters there; inputs in this development are ASCII.) -/
def isPyWs (c : Char) : Bool :=
  c = ' ' || c = '\t' || c = '\n' || c = '\r' || c = '\x0b' || c = '\x0c'

/-- The digit character for a value `k ≤ 9`. -/
def digitChar (k : ℕ) : Char := Char.ofNat (48 + k)

/-- Numeric value of a digit character. -/
def charVal (c : Char) : ℕ := c.toNat - 48

/-! ## Python `int()` on strings (base 10, ASCII fragment)

`int(s)` strips surrounding whitespace, accepts one optional sign, then a
nonempty digit run in which single underscores may stand between digits.
Any other shape raises `ValueError`, modelled as `none`. -/

/-- Digit run with single underscores allowed between digits (the part of a
Python integer literal after the first digit). `acc` is the value read so
far. -/
def pyDigitsVal : ℕ → List Char → Option ℕ
  | acc, [] => some acc
  | acc, c :: cs =>
    if c.isDigit then pyDigitsVal (10 * acc + charVal c) cs
    else if c = '_' then
      match cs with
      | d :: cs2 => if d.isDigit then pyDigitsVal (10 * acc + charVal d) cs2 else none
      | [] => none
    else none

/-- Unsigned digit-run parse: the first character must be a digit. -/
def pyIntDigits : List Char → Option ℕ
  | [] => none
  | c :: cs => if c.isDigit then pyDigitsVal (charVal c) cs else none

/-- Drop trailing ASCII whitespace. -/
def dropTrailWs (cs : List Char) : List Char := (cs.reverse.dropWhile isPyWs).reverse

/-- Python `int()` on a character list: strip whitespace, optional sign,
nonempty digit run.  `none` models `ValueError`. -/
def pyIntChars (cs : List Char) : Option Int :=
  let t := dropTrailWs (cs.dropWhile isPyWs)
  match t with
  | '+' :: rest => (pyIntDigits rest).map (fun n => (n : Int))
  | '-' :: rest => (pyIntDigits rest).map (fun n => -(n : Int))
  | _ => (pyIntDigits t).map (fun n => (n : Int))

/-! ## Proleptic Gregorian calendar, as in CPython `datetime`

`ymd2ord` and `ord2ymd` mirror `datetime._ymd2ord` / `datetime._ord2ymd`:
day number 1 is 0001-01-01, day number 3652059 is 9999-12-31. -/

/-- Gregorian leap-year test (`datetime._is_leap`). -/
def isLeap (y : ℕ) : Bool := (y % 4 == 0 && y % 100 != 0) || y % 400 == 0

/-- Number of days in month `m` of year `y` (`datetime._days_in_month`). -/
def daysInMonth (y m : ℕ) : ℕ :=
  if m = 2 then (if isLeap y then 29 else 28)
  else if m = 4 ∨ m = 6 ∨ m = 9 ∨ m = 11 then 30 else 31

/-- Days before month `m` in a non-leap year (`datetime._DAYS_BEFORE_MONTH`). -/
def daysBeforeMonthTable (m : ℕ) : ℕ :=
  match m with
  | 1 => 0 | 2 => 31 | 3 => 59 | 4 => 90 | 5 => 120 | 6 => 151 | 7 => 181
  | 8 => 212 | 9 => 243 | 10 => 273 | 11 => 304 | _ => 334

/-- Days in year `y` before month `m` (`datetime._days_before_month`). -/
def daysBeforeMonth (y m : ℕ) : ℕ :=
  daysBeforeMonthTable m + (if 2 < m ∧ isLeap y = true then 1 else 0)

/-- Days before January 1 of year `y` (`datetime._days_before_year`). -/
def daysBeforeYear (y : ℕ) : ℕ :=
  365 * (y - 1) + (y - 1) / 4 - (y - 1) / 100 + (y - 1) / 400

/-- Proleptic Gregorian ordinal of a date (`date.toordinal`). -/
def ymd2ord (y m d : ℕ) : ℕ := daysBeforeYear y + daysBeforeMonth y m + d

/-- A calendar date representable by Python `datetime` (year 1 to 9999). -/
def ValidDate (y m d : ℕ) : Prop :=
  1 ≤ y ∧ y ≤ 9999 ∧ 1 ≤ m ∧ m ≤ 12 ∧ 1 ≤ d ∧ d ≤ daysInMonth y m

instance (y m d : ℕ) : Decidable (ValidDate y m d) := by unfold ValidDate; infer_instance

/-- The ordinal of the last representable day, `date.max.toordinal()`. -/
def maxOrd : ℕ := 3652059

/-- Month and (1-based) day from a 0-based day-of-year, given the leap flag;
the branch bounds are the cumulative month lengths, as in the
`_DAYS_BEFORE_MONTH` bisection of `datetime._ord2ymd`. -/
def monthDayOfDoy (leap : Bool) (doy : ℕ) : ℕ × ℕ :=
  let L : ℕ := if leap then 1 else 0
  if doy < 31 then (1, doy + 1)
  else if doy < 59 + L then (2, doy - 31 + 1)
  else if doy < 90 + L then (3, doy - (59 + L) + 1)
  else if doy < 120 + L then (4, doy - (90 + L) + 1)
  else if doy < 151 + L then (5, doy - (120 + L) + 1)
  else if doy < 181 + L then (6, doy - (151 + L) + 1)
  else if doy < 212 + L then (7, doy - (181 + L) + 1)
  else if doy < 243 + L then (8, doy - (212 + L) + 1)
  else if doy < 273 + L then (9, doy - (243 + L) + 1)
  else if doy < 304 + L then (10, doy - (273 + L) + 1)
  else if doy < 334 + L then (11, doy - (304 + L) + 1)
  else (12, doy - (334 + L) + 1)

/-- Date from a proleptic Gregorian ordinal (`datetime._ord2ymd`). -/
def ord2ymd (n : ℕ) : ℕ × ℕ × ℕ :=
  let n0 := n - 1
  let n400 := n0 / 146097
  let r1 := n0 % 146097
  let n100 := r1 / 36524
  let r2 := r1 % 36524
  let n4 := r2 / 1461
  let r3 := r2 % 1461
  let n1 := r3 / 365
  let r4 := r3 % 365
  let year := 400 * n400 + 100 * n100 + 4 * n4 + n1 + 1
  if n1 = 4 ∨ n100 = 4 then (year - 1, 12, 31)
  else
    let md := monthDayOfDoy (isLeap year) r4
    (year, md.1, md.2)

example : ord2ymd (ymd2ord 2023 6 15) = (2023, 6, 15) := by decide
example : ord2ymd (ymd2ord 2024 2 29) = (2024, 2, 29) := by decide
example : ord2ymd 3652059 = (9999, 12, 31) := by decide
example : ord2ymd 1 = (1, 1, 1) := by decide
example : ord2ymd (ymd2ord 2023 6 15 - 1) = (2023, 6, 14) := by decide
example : ord2ymd (ymd2ord 2023 3 1 - 1) = (2023, 2, 28) := by decide
example : ord2ymd (ymd2ord 2024 3 1 - 1) = (2024, 2, 29) := by decide
example : ord2ymd (ymd2ord 2024 1 1 - 1) = (2023, 12, 31) := by decide
example : pyIntChars "+05".data = some 5 := by decide
example : pyIntChars "-08".data = some (-8) := by decide
example : pyIntChars "+5 ".data = some 5 := by decide
example : pyIntChars "+ 5".data = none := by decide
example : pyIntChars "+5_".data = none := by decide
example : pyIntChars "1_2".data = some 12 := by decide
example : pyIntChars "+".data = none := by decide

/-! ## CPython `strptime` for the two formats used by the source

CPython `_strptime` compiles a format to a regex of prioritized
alternatives and requires the whole string to be consumed
(`"unconverted data remains"`).  Each directive below lists its
alternatives in CPython's order; `tryAlts` implements the backtracking
regex engine for this alternation-of-fixed-patterns shape: it commits to
the first alternative whose own match and whose continuation both
succeed. -/

/-- Value of a two-digit match. -/
def twoDigits (c1 c2 : Char) : ℕ := 10 * charVal c1 + charVal c2

/-- A two-character range-by-range pattern such as `1[0-2]`. -/
def altRange2 (lo1 hi1 lo2 hi2 : Char) : List Char → Option (ℕ × List Char)
  | c1 :: c2 :: rest =>
    if lo1 ≤ c1 ∧ c1 ≤ hi1 ∧ lo2 ≤ c2 ∧ c2 ≤ hi2 then some (twoDigits c1 c2, rest) else none
  | _ => none

/-- A one-character range pattern such as `[1-9]`. -/
def altRange1 (lo hi : Char) : List Char → Option (ℕ × List Char)
  | c :: rest => if lo ≤ c ∧ c ≤ hi then some (charVal c, rest) else none
  | _ => none

/-- The ` [1-9]` alternative of `%d` (space then digit; `int()` strips the
space, so the value is the digit alone). -/
def altSpDigit : List Char → Option (ℕ × List Char)
  | c1 :: c2 :: rest =>
    if c1 = ' ' ∧ '1' ≤ c2 ∧ c2 ≤ '9' then some (charVal c2, rest) else none
  | _ => none

/-- `%m`: `1[0-2]|0[1-9]|[1-9]`. -/
def altsMonth : List (List Char → Option (ℕ × List Char)) :=
  [altRange2 '1' '1' '0' '2', altRange2 '0' '0' '1' '9', altRange1 '1' '9']

/-- `%d`: `3[0-1]|[1-2]\d|0[1-9]|[1-9]| [1-9]`. -/
def altsDay : List (List Char → Option (ℕ × List Char)) :=
  [altRange2 '3' '3' '0' '1', altRange2 '1' '2' '0' '9', altRange2 '0' '0' '1' '9',
   altRange1 '1' '9', altSpDigit]

/-- `%H`: `2[0-3]|[0-1]\d|\d`. -/
def altsHour : List (List Char → Option (ℕ × List Char)) :=
  [altRange2 '2' '2' '0' '3', altRange2 '0' '1' '0' '9', altRange1 '0' '9']

/-- `%M`: `[0-5]\d|\d`. -/
def altsMin : List (List Char → Option (ℕ × List Char)) :=
  [altRange2 '0' '5' '0' '9', altRange1 '0' '9']

/-- `%S`: `6[0-1]|[0-5]\d|\d`. -/
def altsSec : List (List Char → Option (ℕ × List Char)) :=
  [altRange2 '6' '6' '0' '1', altRange2 '0' '5' '0' '9', altRange1 '0' '9']

/-- Backtracking over an ordered alternation: take the first alternative
that matches here and whose continuation `k` also succeeds. -/
def tryAlts (alts : List (List Char → Option (ℕ × List Char)))
    (k : ℕ → List Char → Option α) (cs : List Char) : Option α :=
  match alts with
  | [] => none
  | a :: rest =>
    match a cs with
    | some (v, cs2) =>
      match k v cs2 with
      | some r => some r
      | none => tryAlts rest k cs
    | none => tryAlts rest k cs

/-- `%Y`: `\d\d\d\d`, exactly four digits. -/
def parse4Digits : List Char → Option (ℕ × List Char)
  | c1 :: c2 :: c3 :: c4 :: rest =>
    if c1.isDigit ∧ c2.isDigit ∧ c3.isDigit ∧ c4.isDigit then
      some (1000 * charVal c1 + 100 * charVal c2 + 10 * charVal c3 + charVal c4, rest)
    else none
  | _ => none

/-- The regex match for format `"%Y%m%d%H%M%S"`, requiring full
consumption, returning `(y, m, d, H, M, S)`. -/
def matchYmdHms (cs : List Char) : Option (ℕ × ℕ × ℕ × ℕ × ℕ × ℕ) :=
  match parse4Digits cs with
  | none => none
  | some (y, r1) =>
    tryAlts altsMonth (fun m r2 =>
      tryAlts altsDay (fun d r3 =>
        tryAlts altsHour (fun H r4 =>
          tryAlts altsMin (fun Mi r5 =>
            tryAlts altsSec (fun S r6 =>
              if r6 = [] then some (y, m, d, H, Mi, S) else none) r5) r4) r3) r2) r1

/-- `datetime.strptime(cs, "%Y%m%d%H%M%S")`: the regex match followed by the
range checks of the `datetime` constructor (which also rejects the leap
seconds 60 and 61 admitted by the `%S` regex, and year 0). -/
def strptimeYmdHms (cs : List Char) : Option (ℕ × ℕ × ℕ × ℕ × ℕ × ℕ) :=
  match matchYmdHms cs with
  | none => none
  | some (y, m, d, H, Mi, S) =>
    if ValidDate y m d ∧ H ≤ 23 ∧ Mi ≤ 59 ∧ S ≤ 59 then some (y, m, d, H, Mi, S) else none

/-! ### Format family B: `"%a %b %d %H:%M:%S %Y"` -/

/-- Case-insensitive literal word match (the regex is compiled with
`IGNORECASE`). -/
def matchWord : List Char → List Char → Option (List Char)
  | [], cs => some cs
  | _ :: _, [] => none
  | a :: ws, c :: rest => if c.toLower = a then matchWord ws rest else none

/-- First word of the list that matches; returns its index plus `base`.
The abbreviated names all have length 3, so at most one can match. -/
def matchWordsAux (base : ℕ) : List String → List Char → Option (ℕ × List Char)
  | [], _ => none
  | w :: ws, cs =>
    match matchWord w.data cs with
    | some rest => some (base, rest)
    | none => matchWordsAux (base + 1) ws cs

/-- `%a` alternatives (C locale, lowercased; matching is case-insensitive). -/
def aWeekdays : List String := ["mon", "tue", "wed", "thu", "fri", "sat", "sun"]

/-- `%b` alternatives (C locale); index 0 is January, so month = index + 1. -/
def aMonths : List String :=
  ["jan", "feb", "mar", "apr", "may", "jun", "jul", "aug", "sep", "oct", "nov", "dec"]

/-- Greedy extension of `\s+` past its first character, giving characters
back to the continuation `k` when it fails (regex backtracking). -/
def wsMore (k : List Char → Option α) : List Char → Option α
  | [] => k []
  | c :: rest =>
    if isPyWs c then
      match wsMore k rest with
      | some r => some r
      | none => k (c :: rest)
    else k (c :: rest)

/-- `\s+`: at least one whitespace character, greedy with give-back. -/
def wsPlus (k : List Char → Option α) : List Char → Option α
  | [] => none
  | c :: rest => if isPyWs c then wsMore k rest else none

/-- A literal `:` in the format. -/
def litColon (k : List Char → Option α) : List Char → Option α
  | [] => none
  | c :: rest => if c = ':' then k rest else none

/-- The regex match for format `"%a %b %d %H:%M:%S %Y"`, requiring full
consumption, returning `(y, m, d, H, M, S)`.  The weekday is matched but
discarded, exactly as `strptime` does (it is not checked against the
date). -/
def matchFamB (cs : List Char) : Option (ℕ × ℕ × ℕ × ℕ × ℕ × ℕ) :=
  match matchWordsAux 0 aWeekdays cs with
  | none => none
  | some (_, r1) =>
    wsPlus (fun r2 =>
      match matchWordsAux 1 aMonths r2 with
      | none => none
      | some (b, r3) =>
        wsPlus (fun r4 =>
          tryAlts altsDay (fun d r5 =>
            wsPlus (fun r6 =>
              tryAlts altsHour (fun H r7 =>
                litColon (fun r8 =>
                  tryAlts altsMin (fun Mi r9 =>
                    litColon (fun r10 =>
                      tryAlts altsSec (fun S r11 =>
                        wsPlus (fun r12 =>
                          match parse4Digits r12 with
                          | some (y, r13) =>
                            if r13 = [] then some (y, b, d, H, Mi, S) else none
                          | none => none) r11) r10) r9) r8) r7) r6) r5) r4) r3) r1

/-- `datetime.strptime(cs, "%a %b %d %H:%M:%S %Y")` with the `datetime`
constructor checks. -/
def strptimeFamB (cs : List Char) : Option (ℕ × ℕ × ℕ × ℕ × ℕ × ℕ) :=
  match matchFamB cs with
  | none => none
  | some (y, m, d, H, Mi, S) =>
    if ValidDate y m d ∧ H ≤ 23 ∧ Mi ≤ 59 ∧ S ≤ 59 then some (y, m, d, H, Mi, S) else none

/-! ### Rendering helpers for stating the round-trip theorems -/

/-- The 14 digit characters of a `YYYYMMDDHHMMSS` timestamp. -/
def digits14 (y m d H Mi S : ℕ) : List Char :=
  digitChar (y / 1000) :: digitChar (y / 100 % 10) :: digitChar (y / 10 % 10) ::
  digitChar (y % 10) :: digitChar (m / 10) :: digitChar (m % 10) ::
  digitChar (d / 10) :: digitChar (d % 10) :: digitChar (H / 10) :: digitChar (H % 10) ::
  digitChar (Mi / 10) :: digitChar (Mi % 10) :: digitChar (S / 10) :: digitChar (S % 10) :: []

/-- A family-A input: `D:`, the 14-digit timestamp, then the raw timezone
suffix (sign, two digits, and an arbitrary ignored tail). -/
def famAInput (y m d H Mi S : ℕ) (sgn : Char) (off : ℕ) (tail : List Char) : String :=
  ⟨'D' :: ':' :: (digits14 y m d H Mi S ++ sgn :: digitChar (off / 10) :: digitChar (off % 10) :: tail)⟩

/-- Seconds since 0001-01-01T00:00:00 of a timestamp, as an integer. -/
def tsSecs (y m d H Mi S : ℕ) : ℤ :=
  (((ymd2ord y m d - 1) * 86400 + (H * 3600 + Mi * 60 + S) : ℕ) : ℤ)

/-- The signed whole-hour offset denoted by a sign character and a
two-digit magnitude. -/
def offSigned (sgn : Char) (off : ℕ) : ℤ := if sgn = '-' then -(off : ℤ) else (off : ℤ)

/-- Whether a string is exactly `YYYY-MM-DD`: four digits, dash, two
digits, dash, two digits. -/
def matchesYMD (s : String) : Bool :=
  match s.data with
  | [a, b, c, d, e, f, g, h, i, j] =>
    a.isDigit && b.isDigit && c.isDigit && d.isDigit && e = '-' && f.isDigit && g.isDigit &&
      h = '-' && i.isDigit && j.isDigit
  | _ => false

/-! ## Output formatting: glibc `strftime("%Y-%m-%d")`

glibc prints `%m` and `%d` zero-padded to two digits, but `%Y` as a plain
decimal numeral without padding, so years below 1000 yield fewer than four
digits (verified against CPython on Linux: year 999 prints as `"999"`).
For `1 ≤ y ≤ 9999` the unpadded numeral equals the 4-digit rendering with
its leading zeros removed. -/

/-- Two-digit zero-padded rendering. -/
def pad2Chars (n : ℕ) : List Char := [digitChar (n / 10), digitChar (n % 10)]

/-- Four-digit zero-padded rendering (for `n ≤ 9999`). -/
def pad4Chars (n : ℕ) : List Char :=
  [digitChar (n / 1000), digitChar (n / 100 % 10), digitChar (n / 10 % 10), digitChar (n % 10)]

/-- `dt.strftime("%Y-%m-%d")` on glibc, as a character list. -/
def formatDateChars (y m d : ℕ) : List Char :=
  (pad4Chars y).dropWhile (· = '0') ++ '-' :: pad2Chars m ++ '-' :: pad2Chars d

/-- `dt.strftime("%Y-%m-%d")` on glibc. -/
def formatDate (y m d : ℕ) : String := ⟨formatDateChars y m d⟩

/-! ## `convert_to_human_readable_date` (src/vais/search.py, lines 16-71) -/

/-- The one exception the function can leak: `OverflowError` from the
`datetime` subtraction, which the source's `except ValueError` does not
catch. -/
inductive PyExc
  | overflow
deriving DecidableEq, Repr

instance : DecidableEq (Except PyExc String) := fun a b =>
  match a, b with
  | .ok x, .ok y =>
    if h : x = y then isTrue (by rw [h]) else isFalse (by intro he; cases he; exact h rfl)
  | .error x, .error y =>
    if h : x = y then isTrue (by rw [h]) else isFalse (by intro he; cases he; exact h rfl)
  | .ok _, .error _ => isFalse (by intro he; cases he)
  | .error _, .ok _ => isFalse (by intro he; cases he)

/-- Lines 42-54: interpret the timezone-offset substring.  Empty offset and
offsets starting with `Z` mean zero hours; offsets starting with `+` or `-`
are `int(timezone_offset[:3])`; anything else is a parse failure
(`none`, leading to the empty-string result). -/
def parseHoursOffset (tz : List Char) : Option Int :=
  if tz = [] then some 0
  else if tz.head? = some 'Z' then some 0
  else if tz.head? = some '+' ∨ tz.head? = some '-' then pyIntChars (tz.take 3)
  else none

/-- `datetime.max` in whole seconds since `datetime.min`
(9999-12-31 23:59:59). -/
def secsMax : ℕ := maxOrd * 86400 - 1

/-- `convert_to_human_readable_date` on its character list.  The
`datetime - timedelta(hours=h)` result must stay between `datetime.min`
and `datetime.max`, otherwise CPython raises `OverflowError`, which the
source catches nowhere (its handlers catch `ValueError` only). -/
def convertChars (cs : List Char) : Except PyExc String :=
  if cs = [] then .ok ""
  else if cs.take 2 = ['D', ':'] then
    let body := cs.drop 2
    match strptimeYmdHms (body.take 14) with
    | none => .ok ""
    | some (y, m, d, H, Mi, S) =>
      match parseHoursOffset (body.drop 14) with
      | none => .ok ""
      | some h =>
        let t : Int := (((ymd2ord y m d - 1) * 86400 + (H * 3600 + Mi * 60 + S) : ℕ) : Int) - h * 3600
        if 0 ≤ t ∧ t ≤ (secsMax : Int) then
          let o := ord2ymd (t.toNat / 86400 + 1)
          .ok (formatDate o.1 o.2.1 o.2.2)
        else .error .overflow
  else if 20 < cs.length then
    match strptimeFamB cs with
    | none => .ok ""
    | some (y, m, d, _, _, _) => .ok (formatDate y m d)
  else .ok ""

/-- `convert_to_human_readable_date` from `src/vais/search.py`.  Normal
returns are `.ok`; `.error .overflow` marks the uncaught `OverflowError`. -/
def convert_to_human_readable_date (s : String) : Except PyExc String :=
  convertChars s.data

/-! ## DataFrame model (src/eval/consolidate.py)

A DataFrame is a list of rows; a column that a row does not carry (a
pandas `NaN`, e.g. `creation_date` of a record without metadata, or the
`rank` column before ranking) is `none`.  `query` is a plain string: the
grouping key column of the pipeline (spec section 3 requires it nonempty
for ranked records, and pandas would exclude missing keys from every
group).  Python compares strings lexicographically by code point;
`strLtB` is that comparison (structurally recursive, so that concrete
instances evaluate inside the kernel). -/

/-- Python string `<`: lexicographic by code point. -/
def strLtB : List Char → List Char → Bool
  | [], [] => false
  | [], _ :: _ => true
  | _ :: _, [] => false
  | a :: as, b :: bs => if a < b then true else if b < a then false else strLtB as bs

/-- Python string comparison on `String`. -/
def pyLt (a b : String) : Bool := strLtB a.data b.data

/-- Whether `sub` starts `s`. -/
def startsList : List Char → List Char → Bool
  | [], _ => true
  | _ :: _, [] => false
  | a :: as, b :: bs => a == b && startsList as bs

/-- Whether `sub` occurs inside `s` (Python `in`, `str.contains` with a
plain-alternation regex). -/
def listInfixB (sub : List Char) : List Char → Bool
  | [] => startsList sub []
  | c :: rest => startsList sub (c :: rest) || listInfixB sub rest

/-- Substring test on `String`. -/
def containsSub (s sub : String) : Bool := listInfixB sub.data s.data

structure Row where
  query : String
  title : Option String := none
  link : Option String := none
  snippet : Option String := none
  creation_date : Option String := none
  modified_date : Option String := none
  rank : Option ℕ := none
  temp_creation_date : Option String := none
deriving DecidableEq, Repr

/-- The boolean mask of lines 41-45: `str.contains('2023|2024', na=False)`
(a regex alternation, hence a substring test, with `NaN` rows `False`),
or `isnull()`, or equal to the empty string. -/
def keepRow (r : Row) : Bool :=
  (match r.creation_date with
   | some s => containsSub s "2023" || containsSub s "2024"
   | none => false)
  || r.creation_date.isNone
  || r.creation_date == some ""

/-- Key order of `sort_values(by='creation_date', ascending=False,
na_position='last')`: larger date strings first, `NaN` after everything. -/
def dateGe (a b : Option String) : Bool :=
  match a, b with
  | _, none => true
  | none, some _ => false
  | some x, some y => !pyLt x y

/-- Row order used by `filter_and_sort_dataframe`. -/
def RowGe (a b : Row) : Prop := dateGe a.creation_date b.creation_date = true

instance : DecidableRel RowGe := fun a b => by unfold RowGe; infer_instance

/-- `filter_and_sort_dataframe` (lines 40-48): apply the mask, then sort by
`creation_date` descending with missing dates last.  pandas' default
unstable quicksort leaves the relative order of tied keys unspecified;
the model uses a concrete comparison sort, and the theorems below rely
only on properties shared by every sort (the multiset of rows and the
sortedness of the keys). -/
def filter_and_sort_dataframe (df : List Row) : List Row :=
  List.insertionSort RowGe (df.filter keepRow)

/-- Line 68: `df['temp_creation_date'] = df['creation_date'].fillna('9999-12-31')`.
Only missing (`NaN`) dates receive the sentinel; present values — including
the empty string — are kept as they are. -/
def fillKey (r : Row) : String := r.creation_date.getD "9999-12-31"

def withTemp (df : List Row) : List Row :=
  df.map (fun r => { r with temp_creation_date := some (fillKey r) })

/-- The `temp_creation_date` value of a row (total, for rows produced by
`withTemp`). -/
def tempKey (r : Row) : String := r.temp_creation_date.getD ""

/-- Line 71: `df.groupby('query')['temp_creation_date'].rank(method='first',
ascending=False).astype('Int64')`.  Per the pandas contract, the rank of a
row is computed within its `query` group, descending (rank 1 for the
largest key), with `method='first'` breaking ties by order of appearance;
the ranks are whole numbers, so `astype('Int64')` is exact.  Row `i`'s rank
is one more than the number of group members that sort strictly before it:
those with a larger key, and those with an equal key appearing earlier. -/
def groupRankFirstDesc (df : List Row) : List Row :=
  (List.finRange df.length).map (fun i =>
    let r := df.get i
    { r with
      rank := some (1 + (List.finRange df.length).countP (fun j =>
        (df.get j).query == r.query &&
          (pyLt (tempKey r) (tempKey (df.get j)) ||
           (tempKey (df.get j) == tempKey r && decide ((j : ℕ) < (i : ℕ)))))) })

/-- Line 74: `df.drop(columns=['temp_creation_date'], inplace=True)`. -/
def dropTempCol (df : List Row) : List Row :=
  df.map (fun r => { r with temp_creation_date := none })

/-- `rank_dataframe` (lines 66-77) as a value transformation: add the
temporary filled column, rank per group, drop the temporary column. -/
def rank_dataframe (df : List Row) : List Row :=
  dropTempCol (groupRankFirstDesc (withTemp df))

/-- A heap mapping references (Python object identities) to DataFrame
values, to express the in-place behaviour of `rank_dataframe`. -/
def DfHeap : Type := ℕ → List Row

/-- `rank_dataframe` as the source executes it: each of its three column
statements mutates the DataFrame object behind the caller's reference
(`df[...] = ...` twice, then `drop(..., inplace=True)`), and the function
returns that same reference, not a copy. -/
def rank_dataframe_inplace (ref : ℕ) (h : DfHeap) : ℕ × DfHeap :=
  let h1 : DfHeap := Function.update h ref (withTemp (h ref))
  let h2 : DfHeap := Function.update h1 ref (groupRankFirstDesc (h1 ref))
  let h3 : DfHeap := Function.update h2 ref (dropTempCol (h2 ref))
  (ref, h3)

/-- `load_and_combine_csv` (lines 17-21): each file is read into a table
(the file I/O boundary is modelled by passing the already-read tables),
and `pd.concat(dataframes, ignore_index=True)` concatenates them in
order, keeping duplicates. -/
def load_and_combine_csv (tables : List (List Row)) : List Row := tables.flatten

example :
    (filter_and_sort_dataframe
      [{ query := "q", creation_date := some "2022-01-01" },
       { query := "q", creation_date := some "2023-05-01" },
       { query := "q", creation_date := some "" },
       { query := "q", creation_date := some "2024-09-09" }]).map (·.creation_date) =
      [some "2024-09-09", some "2023-05-01", some ""] := by decide

example :
    (rank_dataframe
      [{ query := "q", creation_date := some "2023-05-01" },
       { query := "q", creation_date := none }]).map (·.rank) = [some 2, some 1] := by decide

example :
    (rank_dataframe
      [{ query := "a", creation_date := some "2024-01-01" },
       { query := "b", creation_date := some "2024-01-01" },
       { query := "a", creation_date := some "2024-01-01" },
       { query := "a", creation_date := some "2023-01-01" },
       { query := "b", creation_date := some "" },
       { query := "a", creation_date := none }]).map (·.rank) =
      [some 2, some 1, some 3, some 4, some 2, some 1] := by decide

/-! ## Supporting lemmas for concatenation (C8) -/

theorem flatten_segment (ts : List (List Row)) :
    ∀ (k : ℕ) (h : k < ts.length),
      ((ts.flatten).drop (((ts.take k).map List.length).sum)).take (ts.get ⟨k, h⟩).length =
        ts.get ⟨k, h⟩ := by
  induction ts with
  | nil => intro k h; exact absurd h (by simp)
  | cons t ts ih =>
    intro k h
    cases k with
    | zero =>
      simp only [List.take_zero, List.map_nil, List.sum_nil, List.drop_zero, List.flatten_cons,
        List.get]
      exact List.take_left t ts.flatten
    | succ k =>
      have hk : k < ts.length := by simpa using h
      simp only [List.take_succ_cons, List.map_cons, List.sum_cons, List.flatten_cons, List.get]
      rw [List.drop_append]
      exact ih k hk

/-! ## Claims C8, C9, C3, C10 -/

/-- C8: `load_and_combine_csv` applied to any list of input tables returns
one combined table whose row count is the sum of the input row counts,
concatenated without deduplication and preserving row order within each
source table (each input table reappears verbatim as the contiguous block
starting after the rows of the tables before it). -/
theorem c8_load_and_combine_concatenates (tables : List (List Row)) :
    (load_and_combine_csv tables).length = (tables.map List.length).sum ∧
    ∀ (k : ℕ) (t : List Row), tables[k]? = some t →
      ((load_and_combine_csv tables).drop (((tables.take k).map List.length).sum)).take t.length
        = t := by
  constructor
  · simp [load_and_combine_csv]
  · intro k t hkt
    have hk : k < tables.length := by
      by_contra hge
      rw [List.getElem?_eq_none (by omega)] at hkt
      exact Option.noConfusion hkt
    have ht : tables.get ⟨k, hk⟩ = t := by
      have := List.getElem?_eq_getElem hk
      rw [hkt] at this
      exact (Option.some.inj this).symm
    have := flatten_segment tables k hk
    rw [ht] at this
    exact this

theorem c8_witness :
    (load_and_combine_csv [[{ query := "a" }], [{ query := "a" }, { query := "b" }]]).length = 3 ∧
    ((load_and_combine_csv [[{ query := "a" }], [{ query := "a" }, { query := "b" }]]).drop 1).take 2
      = [{ query := "a" }, { query := "b" }] := by
  have h := c8_load_and_combine_concatenates
    [[{ query := "a" }], [{ query := "a" }, { query := "b" }]]
  exact ⟨h.1.trans (by decide), h.2 1 [{ query := "a" }, { query := "b" }] (by decide)⟩

/-- C9: `rank_dataframe` works in place: it returns the very reference it
was given, the DataFrame behind that reference now holds the ranked table
(with the temporary column gone), and no other object changes. -/
theorem c9_rank_dataframe_is_in_place (ref : ℕ) (h : DfHeap) :
    (rank_dataframe_inplace ref h).1 = ref ∧
    (rank_dataframe_inplace ref h).2 ref = rank_dataframe (h ref) ∧
    ∀ r2 : ℕ, r2 ≠ ref → (rank_dataframe_inplace ref h).2 r2 = h r2 := by
  refine ⟨rfl, ?_, ?_⟩
  · simp [rank_dataframe_inplace, rank_dataframe]
  · intro r2 hne
    simp [rank_dataframe_inplace, Function.update_noteq hne]

theorem c9_witness :
    (rank_dataframe_inplace 0 (fun _ => ([] : List Row))).2 1 = [] ∧
    (rank_dataframe_inplace 0 (fun _ => ([{ query := "q" }] : List Row))).1 = 0 := by
  exact ⟨(c9_rank_dataframe_is_in_place 0 (fun _ => [])).2.2 1 (by decide),
    (c9_rank_dataframe_is_in_place 0 (fun _ => [{ query := "q" }])).1⟩

/-- C3 (code bug): the claim says the conversion never raises, but the
`datetime` subtraction can raise `OverflowError`, which no handler in the
source catches: on `"D:99991231230000-02"` the negative offset pushes the
timestamp past year 9999 and the call raises instead of returning `""`. -/
theorem c3_convert_raises_on_overflow_input :
    convert_to_human_readable_date "D:99991231230000-02" = .error .overflow := by decide

/-- C10: a signed timezone offset shorter than three characters is accepted:
`"D:20230615120000+5"` parses with a five-hour offset (and the offset is
really applied: at 04:00 the same five hours cross into the previous
day). -/
theorem c10_short_offset_accepted :
    convert_to_human_readable_date "D:20230615120000+5" = .ok "2023-06-15" ∧
    convert_to_human_readable_date "D:20230615040000+5" = .ok "2023-06-14" := by
  exact ⟨by decide, by decide⟩

/-! ## Order lemmas for the string comparison -/

theorem strLtB_irrefl (a : List Char) : strLtB a a = false := by
  induction a with
  | nil => rfl
  | cons c cs ih => simp [strLtB, lt_irrefl, ih]

theorem strLtB_asymm : ∀ (a b : List Char), strLtB a b = true → strLtB b a = false := by
  intro a
  induction a with
  | nil =>
    intro b h
    cases b with
    | nil => rfl
    | cons d ds => simp [strLtB]
  | cons c cs ih =>
    intro b h
    cases b with
    | nil => simp [strLtB] at h
    | cons d ds =>
      rcases lt_trichotomy c d with hcd | hcd | hcd
      · simp [strLtB, if_neg (lt_asymm hcd), if_pos hcd]
      · subst hcd
        simp only [strLtB, if_neg (lt_irrefl c)] at h ⊢
        exact ih ds h
      · simp [strLtB, if_neg (lt_asymm hcd), if_pos hcd] at h

theorem strLtB_trans :
    ∀ (a b c : List Char), strLtB a b = true → strLtB b c = true → strLtB a c = true := by
  intro a
  induction a with
  | nil =>
    intro b c hab hbc
    cases b with
    | nil => simp [strLtB] at hab
    | cons d ds =>
      cases c with
      | nil => simp [strLtB] at hbc
      | cons e es => simp [strLtB]
  | cons x xs ih =>
    intro b c hab hbc
    cases b with
    | nil => simp [strLtB] at hab
    | cons d ds =>
      cases c with
      | nil => simp [strLtB] at hbc
      | cons e es =>
        rcases lt_trichotomy x d with hxd | hxd | hxd
        · rcases lt_trichotomy d e with hde | hde | hde
          · have hxe : x < e := lt_trans hxd hde
            simp [strLtB, if_pos hxe]
          · subst hde
            simp [strLtB, if_pos hxd]
          · rcases lt_trichotomy d e with h2 | h2 | h2
            · exact absurd h2 (lt_asymm hde)
            · exact absurd h2 (ne_of_gt hde)
            · simp [strLtB, if_neg (lt_asymm hde), if_pos hde] at hbc
        · subst hxd
          rcases lt_trichotomy x e with hxe | hxe | hxe
          · simp [strLtB, if_pos hxe]
          · subst hxe
            simp only [strLtB, if_neg (lt_irrefl x)] at hab hbc ⊢
            exact ih ds es hab hbc
          · simp [strLtB, if_neg (lt_asymm hxe), if_pos hxe] at hbc
        · simp [strLtB, if_neg (lt_asymm hxd), if_pos hxd] at hab

theorem strLtB_connex :
    ∀ (a b : List Char), strLtB a b = false → strLtB b a = true ∨ a = b := by
  intro a
  induction a with
  | nil =>
    intro b h
    cases b with
    | nil => exact Or.inr rfl
    | cons d ds => simp [strLtB] at h
  | cons c cs ih =>
    intro b h
    cases b with
    | nil => exact Or.inl (by simp [strLtB])
    | cons d ds =>
      rcases lt_trichotomy c d with hcd | hcd | hcd
      · simp [strLtB, if_pos hcd] at h
      · subst hcd
        simp only [strLtB, if_neg (lt_irrefl c)] at h ⊢
        rcases ih ds h with h2 | h2
        · exact Or.inl h2
        · exact Or.inr (by rw [h2])
      · exact Or.inl (by simp [strLtB, if_pos hcd])

instance : IsTotal Row RowGe := by
  constructor
  intro a b
  unfold RowGe dateGe
  cases ha : a.creation_date with
  | none =>
    cases hb : b.creation_date with
    | none => exact Or.inl rfl
    | some y => exact Or.inr rfl
  | some x =>
    cases hb : b.creation_date with
    | none => exact Or.inl rfl
    | some y =>
      unfold pyLt
      cases hxy : strLtB x.data y.data with
      | false => exact Or.inl (by simp [hxy])
      | true => exact Or.inr (by simp [strLtB_asymm _ _ hxy])

theorem dateGe_none_r (a : Option String) : dateGe a none = true := by cases a <;> rfl

theorem dateGe_none_some (y : String) : dateGe none (some y) = false := rfl

theorem dateGe_some_some (x y : String) : dateGe (some x) (some y) = !pyLt x y := rfl

theorem bool_not_eq_true {b : Bool} (h : (!b) = true) : b = false := by
  cases b
  · rfl
  · exact absurd h (by decide)

instance : IsTrans Row RowGe := by
  constructor
  intro a b c hab hbc
  unfold RowGe at hab hbc ⊢
  rcases hc : c.creation_date with _ | z
  · exact dateGe_none_r _
  · rcases hb : b.creation_date with _ | y
    · rw [hb, hc, dateGe_none_some] at hbc
      exact absurd hbc (by decide)
    · rcases ha : a.creation_date with _ | x
      · rw [ha, hb, dateGe_none_some] at hab
        exact absurd hab (by decide)
      · rw [ha, hb, dateGe_some_some] at hab
        rw [hb, hc, dateGe_some_some] at hbc
        rw [dateGe_some_some]
        have hab2 : strLtB x.data y.data = false := bool_not_eq_true hab
        have hbc2 : strLtB y.data z.data = false := bool_not_eq_true hbc
        suffices hxz : strLtB x.data z.data = false by
          unfold pyLt; rw [hxz]; rfl
        rcases strLtB_connex _ _ hab2 with h1 | h1
        · rcases strLtB_connex _ _ hbc2 with h2 | h2
          · exact strLtB_asymm _ _ (strLtB_trans _ _ _ h2 h1)
          · rw [h2] at h1
            exact strLtB_asymm _ _ h1
        · rw [h1]
          exact hbc2

/-- C4: `filter_and_sort_dataframe` keeps exactly the rows whose
`creation_date` contains `"2023"` or `"2024"` anywhere, or is missing or
empty (the `keepRow` mask), discards all other rows, and returns the
survivors ordered by `creation_date` descending with missing and empty
dates at the end (`RowGe`-sortedness); on the four-row example of the
spec, the 2022 row is dropped and the rest come back in the order
2024-09-09, 2023-05-01, empty. -/
theorem c4_filter_and_sort_dataframe_spec (df : List Row) :
    (filter_and_sort_dataframe df).Perm (df.filter keepRow) ∧
    List.Sorted RowGe (filter_and_sort_dataframe df) ∧
    (filter_and_sort_dataframe
      [{ query := "q", creation_date := some "2022-01-01" },
       { query := "q", creation_date := some "2023-05-01" },
       { query := "q", creation_date := some "" },
       { query := "q", creation_date := some "2024-09-09" }]).map (·.creation_date) =
      [some "2024-09-09", some "2023-05-01", some ""] := by
  exact ⟨List.perm_insertionSort RowGe (df.filter keepRow),
    List.sorted_insertionSort RowGe (df.filter keepRow), by decide⟩

/-! ## Correctness of the ordinal conversions

`ord2ymd_spec` is the key fact behind the claims about the date of a
shifted timestamp: for every ordinal in the representable range,
`ord2ymd` yields a valid calendar date whose `ymd2ord` is the original
ordinal; `ymd2ord_bounds` gives the representable range of a valid
date. -/

theorem isLeap_iff (y : ℕ) : isLeap y = true ↔ ((y % 4 = 0 ∧ y % 100 ≠ 0) ∨ y % 400 = 0) := by
  unfold isLeap
  simp [Bool.or_eq_true, Bool.and_eq_true, beq_iff_eq, bne_iff_ne]

set_option maxHeartbeats 2000000 in
theorem monthDayOfDoy_spec (leap : Bool) (doy : ℕ)
    (hd : doy < 365 + (if leap then 1 else 0)) :
    1 ≤ (monthDayOfDoy leap doy).1 ∧ (monthDayOfDoy leap doy).1 ≤ 12 ∧
    1 ≤ (monthDayOfDoy leap doy).2 ∧
    (monthDayOfDoy leap doy).2 ≤
      (if (monthDayOfDoy leap doy).1 = 2 then (if leap then 29 else 28)
       else if (monthDayOfDoy leap doy).1 = 4 ∨ (monthDayOfDoy leap doy).1 = 6 ∨
         (monthDayOfDoy leap doy).1 = 9 ∨ (monthDayOfDoy leap doy).1 = 11 then 30 else 31) ∧
    daysBeforeMonthTable (monthDayOfDoy leap doy).1 +
      (if 2 < (monthDayOfDoy leap doy).1 ∧ leap = true then 1 else 0) +
      (monthDayOfDoy leap doy).2 = doy + 1 := by
  cases leap
  case false =>
    simp only [Bool.false_eq_true, if_false, Nat.add_zero] at hd
    interval_cases doy <;> decide
  case true =>
    simp only [if_true] at hd
    interval_cases doy <;> decide

theorem ord2ymd_def (n : ℕ) :
    ord2ymd n =
      if (n - 1) % 146097 % 36524 % 1461 / 365 = 4 ∨ (n - 1) % 146097 / 36524 = 4 then
        (400 * ((n - 1) / 146097) + 100 * ((n - 1) % 146097 / 36524) + 4 * ((n - 1) % 146097 % 36524 / 1461) + (n - 1) % 146097 % 36524 % 1461 / 365, 12, 31)
      else
        (400 * ((n - 1) / 146097) + 100 * ((n - 1) % 146097 / 36524) + 4 * ((n - 1) % 146097 % 36524 / 1461) + (n - 1) % 146097 % 36524 % 1461 / 365 + 1,
         (monthDayOfDoy (isLeap (400 * ((n - 1) / 146097) + 100 * ((n - 1) % 146097 / 36524) + 4 * ((n - 1) % 146097 % 36524 / 1461) + (n - 1) % 146097 % 36524 % 1461 / 365 + 1)) ((n - 1) % 146097 % 36524 % 1461 % 365)).1,
         (monthDayOfDoy (isLeap (400 * ((n - 1) / 146097) + 100 * ((n - 1) % 146097 / 36524) + 4 * ((n - 1) % 146097 % 36524 / 1461) + (n - 1) % 146097 % 36524 % 1461 / 365 + 1)) ((n - 1) % 146097 % 36524 % 1461 % 365)).2) := rfl

set_option maxHeartbeats 2000000 in
theorem ord2ymd_spec (n : ℕ) (hn1 : 1 ≤ n) (hn2 : n ≤ maxOrd) :
    ValidDate (ord2ymd n).1 (ord2ymd n).2.1 (ord2ymd n).2.2 ∧
    ymd2ord (ord2ymd n).1 (ord2ymd n).2.1 (ord2ymd n).2.2 = n := by
  rw [ord2ymd_def n]
  rw [maxOrd] at hn2
  obtain ⟨n0, rfl⟩ : ∃ n0, n = n0 + 1 := ⟨n - 1, by omega⟩
  simp only [Nat.add_sub_cancel]
  have e1 := Nat.div_add_mod n0 146097
  have l1 : n0 % 146097 < 146097 := Nat.mod_lt _ (by norm_num)
  generalize hr1 : n0 % 146097 = r1 at e1 l1 ⊢
  generalize hq1 : n0 / 146097 = q1 at e1 ⊢
  have e2 := Nat.div_add_mod r1 36524
  have l2 : r1 % 36524 < 36524 := Nat.mod_lt _ (by norm_num)
  generalize hr2 : r1 % 36524 = r2 at e2 l2 ⊢
  generalize hq2 : r1 / 36524 = q2 at e2 ⊢
  have e3 := Nat.div_add_mod r2 1461
  have l3 : r2 % 1461 < 1461 := Nat.mod_lt _ (by norm_num)
  generalize hr3 : r2 % 1461 = r3 at e3 l3 ⊢
  generalize hq3 : r2 / 1461 = q3 at e3 ⊢
  have e4 := Nat.div_add_mod r3 365
  have l4 : r3 % 365 < 365 := Nat.mod_lt _ (by norm_num)
  generalize hr4 : r3 % 365 = r4 at e4 l4 ⊢
  generalize hq4 : r3 / 365 = q4 at e4 ⊢
  clear hr1 hq1 hr2 hq2 hr3 hq3 hr4 hq4
  have hn : n0 = 146097 * q1 + 36524 * q2 + 1461 * q3 + 365 * q4 + r4 := by omega
  have bq2 : q2 ≤ 4 := by omega
  have bq3 : q3 ≤ 24 := by omega
  have bq4 : q4 ≤ 4 := by omega
  have bx2 : q2 = 4 → q3 = 0 ∧ q4 = 0 ∧ r4 = 0 := by intro h; omega
  have bx3 : q4 = 4 → r4 = 0 ∧ q3 ≤ 23 ∧ q2 ≤ 3 := by intro h; omega
  clear e1 e2 e3 e4 l1 l2 l3 hn1
  subst hn
  split_ifs with hsp
  · constructor
    · simp only [ValidDate, daysInMonth]
      norm_num
      rcases hsp with h4 | h4
      · obtain ⟨hx1, hx2, hx3⟩ := bx3 h4
        omega
      · obtain ⟨hx1, hx2, hx3⟩ := bx2 h4
        omega
    · obtain ⟨z, hz⟩ : ∃ z, 400 * q1 + 100 * q2 + 4 * q3 + q4 = z + 1 :=
        ⟨400 * q1 + 100 * q2 + 4 * q3 + q4 - 1, by rcases hsp with h4 | h4 <;> omega⟩
      simp only [ymd2ord, daysBeforeYear, daysBeforeMonth, daysBeforeMonthTable]
      rw [hz]
      simp only [Nat.add_sub_cancel]
      norm_num
      split_ifs with hL
      · rw [isLeap_iff] at hL
        rcases hsp with h4 | h4
        · obtain ⟨hx1, hx2, hx3⟩ := bx3 h4
          have hz2 : z = 400 * q1 + 100 * q2 + 4 * q3 + 3 := by omega
          clear hz bx2 bx3 hL bq2 bq3 bq4 hn2
          subst hz2
          omega
        · obtain ⟨hx1, hx2, hx3⟩ := bx2 h4
          have hz2 : z = 400 * q1 + 399 := by omega
          clear hz bx2 bx3 hL bq2 bq3 bq4 hn2
          subst hz2
          omega
      · rw [isLeap_iff] at hL
        push_neg at hL
        rcases hsp with h4 | h4
        · obtain ⟨hx1, hx2, hx3⟩ := bx3 h4
          have hz2 : z = 400 * q1 + 100 * q2 + 4 * q3 + 3 := by omega
          clear hz bx2 bx3 bq2 bq3 bq4 hn2
          subst hz2
          omega
        · obtain ⟨hx1, hx2, hx3⟩ := bx2 h4
          have hz2 : z = 400 * q1 + 399 := by omega
          clear hz bx2 bx3 bq2 bq3 bq4 hn2
          subst hz2
          omega
  · have hb : r4 < 365 + (if isLeap (400 * q1 + 100 * q2 + 4 * q3 + q4 + 1) then 1 else 0) :=
      Nat.lt_of_lt_of_le l4 (Nat.le_add_right 365 _)
    obtain ⟨hm1, hm2, hd1, hd2, heq⟩ := monthDayOfDoy_spec (isLeap (400 * q1 + 100 * q2 + 4 * q3 + q4 + 1)) r4 hb
    have hq2n : q2 ≤ 3 := by
      rcases Nat.lt_or_ge q2 4 with h | h
      · omega
      · exact absurd (Or.inr (by omega)) hsp
    have hq4n : q4 ≤ 3 := by
      rcases Nat.lt_or_ge q4 4 with h | h
      · omega
      · exact absurd (Or.inl (by omega)) hsp
    constructor
    · simp only [ValidDate]
      refine ⟨by omega, by omega, hm1, hm2, hd1, ?_⟩
      unfold daysInMonth
      exact hd2
    · have hdbm : daysBeforeMonth (400 * q1 + 100 * q2 + 4 * q3 + q4 + 1) (monthDayOfDoy (isLeap (400 * q1 + 100 * q2 + 4 * q3 + q4 + 1)) r4).1 + (monthDayOfDoy (isLeap (400 * q1 + 100 * q2 + 4 * q3 + q4 + 1)) r4).2 = r4 + 1 := by
        unfold daysBeforeMonth
        exact heq
      show ymd2ord (400 * q1 + 100 * q2 + 4 * q3 + q4 + 1) (monthDayOfDoy (isLeap (400 * q1 + 100 * q2 + 4 * q3 + q4 + 1)) r4).1 (monthDayOfDoy (isLeap (400 * q1 + 100 * q2 + 4 * q3 + q4 + 1)) r4).2 =
        146097 * q1 + 36524 * q2 + 1461 * q3 + 365 * q4 + r4 + 1
      unfold ymd2ord
      rw [Nat.add_assoc, hdbm]
      unfold daysBeforeYear
      simp only [Nat.add_sub_cancel]
      clear hb hd2 hm1 hm2 hd1 heq bx2 bx3 hsp hdbm hn2
      obtain ⟨W, hW⟩ : ∃ w, 400 * q1 + 100 * q2 + 4 * q3 + q4 = w := ⟨_, rfl⟩
      rw [hW]
      omega

set_option maxHeartbeats 1000000 in
theorem ymd2ord_bounds (y m d : ℕ) (h : ValidDate y m d) :
    1 ≤ ymd2ord y m d ∧ ymd2ord y m d ≤ maxOrd := by
  obtain ⟨h1, h2, h3, h4, h5, h6⟩ := h
  obtain ⟨z, rfl⟩ : ∃ z, y = z + 1 := ⟨y - 1, by omega⟩
  have hz : z ≤ 9998 := by omega
  unfold daysInMonth at h6
  unfold ymd2ord daysBeforeYear daysBeforeMonth maxOrd
  simp only [Nat.add_sub_cancel]
  interval_cases m <;>
    simp only [daysBeforeMonthTable] at h6 ⊢ <;>
    norm_num at h6 ⊢ <;>
    first
      | (split_ifs at h6 ⊢ with hL <;> (rw [isLeap_iff] at hL; omega))
      | omega

/-! ## Round-trip of the 14-digit timestamp parse

For a timestamp rendered as its 14 zero-padded digits, the regex match
recovers exactly the rendered fields: full consumption forces every
directive to take its two-digit alternative, and the two-digit
alternatives are mutually exclusive. -/

theorem charVal_digitChar {k : ℕ} (h : k ≤ 9) : charVal (digitChar k) = k := by
  interval_cases k <;> decide

theorem digitChar_isDigit {k : ℕ} (h : k ≤ 9) : (digitChar k).isDigit = true := by
  interval_cases k <;> decide

/-! ### Committed two-digit parses

For a value rendered as its two zero-padded digits, the first regex
alternative that matches is the two-digit one recovering exactly that
value, so when the continuation succeeds the whole backtracking match
commits to it.  One case per value; each case rewrites the alternatives
before the committing one to `none` and the committing one to its value
(all definitional). -/

theorem monthCommit {α : Type} (K : ℕ → List Char → Option α) (m : ℕ) (h1 : 1 ≤ m) (h2 : m ≤ 12)
    (rest : List Char) (res : α) (hK : K m rest = some res) :
    tryAlts altsMonth K (digitChar (m / 10) :: digitChar (m % 10) :: rest) = some res := by
  interval_cases m
  · simp only [altsMonth,
      tryAlts,
      show altRange2 '1' '1' '0' '2' (digitChar (1 / 10) :: digitChar (1 % 10) :: rest) = none from rfl,
      show altRange2 '0' '0' '1' '9' (digitChar (1 / 10) :: digitChar (1 % 10) :: rest) = some (1, rest) from rfl,
      hK]
  · simp only [altsMonth,
      tryAlts,
      show altRange2 '1' '1' '0' '2' (digitChar (2 / 10) :: digitChar (2 % 10) :: rest) = none from rfl,
      show altRange2 '0' '0' '1' '9' (digitChar (2 / 10) :: digitChar (2 % 10) :: rest) = some (2, rest) from rfl,
      hK]
  · simp only [altsMonth,
      tryAlts,
      show altRange2 '1' '1' '0' '2' (digitChar (3 / 10) :: digitChar (3 % 10) :: rest) = none from rfl,
      show altRange2 '0' '0' '1' '9' (digitChar (3 / 10) :: digitChar (3 % 10) :: rest) = some (3, rest) from rfl,
      hK]
  · simp only [altsMonth,
      tryAlts,
      show altRange2 '1' '1' '0' '2' (digitChar (4 / 10) :: digitChar (4 % 10) :: rest) = none from rfl,
      show altRange2 '0' '0' '1' '9' (digitChar (4 / 10) :: digitChar (4 % 10) :: rest) = some (4, rest) from rfl,
      hK]
  · simp only [altsMonth,
      tryAlts,
      show altRange2 '1' '1' '0' '2' (digitChar (5 / 10) :: digitChar (5 % 10) :: rest) = none from rfl,
      show altRange2 '0' '0' '1' '9' (digitChar (5 / 10) :: digitChar (5 % 10) :: rest) = some (5, rest) from rfl,
      hK]
  · simp only [altsMonth,
      tryAlts,
      show altRange2 '1' '1' '0' '2' (digitChar (6 / 10) :: digitChar (6 % 10) :: rest) = none from rfl,
      show altRange2 '0' '0' '1' '9' (digitChar (6 / 10) :: digitChar (6 % 10) :: rest) = some (6, rest) from rfl,
      hK]
  · simp only [altsMonth,
      tryAlts,
      show altRange2 '1' '1' '0' '2' (digitChar (7 / 10) :: digitChar (7 % 10) :: rest) = none from rfl,
      show altRange2 '0' '0' '1' '9' (digitChar (7 / 10) :: digitChar (7 % 10) :: rest) = some (7, rest) from rfl,
      hK]
  · simp only [altsMonth,
      tryAlts,
      show altRange2 '1' '1' '0' '2' (digitChar (8 / 10) :: digitChar (8 % 10) :: rest) = none from rfl,
      show altRange2 '0' '0' '1' '9' (digitChar (8 / 10) :: digitChar (8 % 10) :: rest) = some (8, rest) from rfl,
      hK]
  · simp only [altsMonth,
      tryAlts,
      show altRange2 '1' '1' '0' '2' (digitChar (9 / 10) :: digitChar (9 % 10) :: rest) = none from rfl,
      show altRange2 '0' '0' '1' '9' (digitChar (9 / 10) :: digitChar (9 % 10) :: rest) = some (9, rest) from rfl,
      hK]
  · simp only [altsMonth,
      tryAlts,
      show altRange2 '1' '1' '0' '2' (digitChar (10 / 10) :: digitChar (10 % 10) :: rest) = some (10, rest) from rfl,
      hK]
  · simp only [altsMonth,
      tryAlts,
      show altRange2 '1' '1' '0' '2' (digitChar (11 / 10) :: digitChar (11 % 10) :: rest) = some (11, rest) from rfl,
      hK]
  · simp only [altsMonth,
      tryAlts,
      show altRange2 '1' '1' '0' '2' (digitChar (12 / 10) :: digitChar (12 % 10) :: rest) = some (12, rest) from rfl,
      hK]

theorem dayCommit {α : Type} (K : ℕ → List Char → Option α) (d : ℕ) (h1 : 1 ≤ d) (h2 : d ≤ 31)
    (rest : List Char) (res : α) (hK : K d rest = some res) :
    tryAlts altsDay K (digitChar (d / 10) :: digitChar (d % 10) :: rest) = some res := by
  interval_cases d
  · simp only [altsDay,
      tryAlts,
      show altRange2 '3' '3' '0' '1' (digitChar (1 / 10) :: digitChar (1 % 10) :: rest) = none from rfl,
      show altRange2 '1' '2' '0' '9' (digitChar (1 / 10) :: digitChar (1 % 10) :: rest) = none from rfl,
      show altRange2 '0' '0' '1' '9' (digitChar (1 / 10) :: digitChar (1 % 10) :: rest) = some (1, rest) from rfl,
      hK]
  · simp only [altsDay,
      tryAlts,
      show altRange2 '3' '3' '0' '1' (digitChar (2 / 10) :: digitChar (2 % 10) :: rest) = none from rfl,
      show altRange2 '1' '2' '0' '9' (digitChar (2 / 10) :: digitChar (2 % 10) :: rest) = none from rfl,
      show altRange2 '0' '0' '1' '9' (digitChar (2 / 10) :: digitChar (2 % 10) :: rest) = some (2, rest) from rfl,
      hK]
  · simp only [altsDay,
      tryAlts,
      show altRange2 '3' '3' '0' '1' (digitChar (3 / 10) :: digitChar (3 % 10) :: rest) = none from rfl,
      show altRange2 '1' '2' '0' '9' (digitChar (3 / 10) :: digitChar (3 % 10) :: rest) = none from rfl,
      show altRange2 '0' '0' '1' '9' (digitChar (3 / 10) :: digitChar (3 % 10) :: rest) = some (3, rest) from rfl,
      hK]
  · simp only [altsDay,
      tryAlts,
      show altRange2 '3' '3' '0' '1' (digitChar (4 / 10) :: digitChar (4 % 10) :: rest) = none from rfl,
      show altRange2 '1' '2' '0' '9' (digitChar (4 / 10) :: digitChar (4 % 10) :: rest) = none from rfl,
      show altRange2 '0' '0' '1' '9' (digitChar (4 / 10) :: digitChar (4 % 10) :: rest) = some (4, rest) from rfl,
      hK]
  · simp only [altsDay,
      tryAlts,
      show altRange2 '3' '3' '0' '1' (digitChar (5 / 10) :: digitChar (5 % 10) :: rest) = none from rfl,
      show altRange2 '1' '2' '0' '9' (digitChar (5 / 10) :: digitChar (5 % 10) :: rest) = none from rfl,
      show altRange2 '0' '0' '1' '9' (digitChar (5 / 10) :: digitChar (5 % 10) :: rest) = some (5, rest) from rfl,
      hK]
  · simp only [altsDay,
      tryAlts,
      show altRange2 '3' '3' '0' '1' (digitChar (6 / 10) :: digitChar (6 % 10) :: rest) = none from rfl,
      show altRange2 '1' '2' '0' '9' (digitChar (6 / 10) :: digitChar (6 % 10) :: rest) = none from rfl,
      show altRange2 '0' '0' '1' '9' (digitChar (6 / 10) :: digitChar (6 % 10) :: rest) = some (6, rest) from rfl,
      hK]
  · simp only [altsDay,
      tryAlts,
      show altRange2 '3' '3' '0' '1' (digitChar (7 / 10) :: digitChar (7 % 10) :: rest) = none from rfl,
      show altRange2 '1' '2' '0' '9' (digitChar (7 / 10) :: digitChar (7 % 10) :: rest) = none from rfl,
      show altRange2 '0' '0' '1' '9' (digitChar (7 / 10) :: digitChar (7 % 10) :: rest) = some (7, rest) from rfl,
      hK]
  · simp only [altsDay,
      tryAlts,
      show altRange2 '3' '3' '0' '1' (digitChar (8 / 10) :: digitChar (8 % 10) :: rest) = none from rfl,
      show altRange2 '1' '2' '0' '9' (digitChar (8 / 10) :: digitChar (8 % 10) :: rest) = none from rfl,
      show altRange2 '0' '0' '1' '9' (digitChar (8 / 10) :: digitChar (8 % 10) :: rest) = some (8, rest) from rfl,
      hK]
  · simp only [altsDay,
      tryAlts,
      show altRange2 '3' '3' '0' '1' (digitChar (9 / 10) :: digitChar (9 % 10) :: rest) = none from rfl,
      show altRange2 '1' '2' '0' '9' (digitChar (9 / 10) :: digitChar (9 % 10) :: rest) = none from rfl,
      show altRange2 '0' '0' '1' '9' (digitChar (9 / 10) :: digitChar (9 % 10) :: rest) = some (9, rest) from rfl,
      hK]
  · simp only [altsDay,
      tryAlts,
      show altRange2 '3' '3' '0' '1' (digitChar (10 / 10) :: digitChar (10 % 10) :: rest) = none from rfl,
      show altRange2 '1' '2' '0' '9' (digitChar (10 / 10) :: digitChar (10 % 10) :: rest) = some (10, rest) from rfl,
      hK]
  · simp only [altsDay,
      tryAlts,
      show altRange2 '3' '3' '0' '1' (digitChar (11 / 10) :: digitChar (11 % 10) :: rest) = none from rfl,
      show altRange2 '1' '2' '0' '9' (digitChar (11 / 10) :: digitChar (11 % 10) :: rest) = some (11, rest) from rfl,
      hK]
  · simp only [altsDay,
      tryAlts,
      show altRange2 '3' '3' '0' '1' (digitChar (12 / 10) :: digitChar (12 % 10) :: rest) = none from rfl,
      show altRange2 '1' '2' '0' '9' (digitChar (12 / 10) :: digitChar (12 % 10) :: rest) = some (12, rest) from rfl,
      hK]
  · simp only [altsDay,
      tryAlts,
      show altRange2 '3' '3' '0' '1' (digitChar (13 / 10) :: digitChar (13 % 10) :: rest) = none from rfl,
      show altRange2 '1' '2' '0' '9' (digitChar (13 / 10) :: digitChar (13 % 10) :: rest) = some (13, rest) from rfl,
      hK]
  · simp only [altsDay,
      tryAlts,
      show altRange2 '3' '3' '0' '1' (digitChar (14 / 10) :: digitChar (14 % 10) :: rest) = none from rfl,
      show altRange2 '1' '2' '0' '9' (digitChar (14 / 10) :: digitChar (14 % 10) :: rest) = some (14, rest) from rfl,
      hK]
  · simp only [altsDay,
      tryAlts,
      show altRange2 '3' '3' '0' '1' (digitChar (15 / 10) :: digitChar (15 % 10) :: rest) = none from rfl,
      show altRange2 '1' '2' '0' '9' (digitChar (15 / 10) :: digitChar (15 % 10) :: rest) = some (15, rest) from rfl,
      hK]
  · simp only [altsDay,
      tryAlts,
      show altRange2 '3' '3' '0' '1' (digitChar (16 / 10) :: digitChar (16 % 10) :: rest) = none from rfl,
      show altRange2 '1' '2' '0' '9' (digitChar (16 / 10) :: digitChar (16 % 10) :: rest) = some (16, rest) from rfl,
      hK]
  · simp only [altsDay,
      tryAlts,
      show altRange2 '3' '3' '0' '1' (digitChar (17 / 10) :: digitChar (17 % 10) :: rest) = none from rfl,
      show altRange2 '1' '2' '0' '9' (digitChar (17 / 10) :: digitChar (17 % 10) :: rest) = some (17, rest) from rfl,
      hK]
  · simp only [altsDay,
      tryAlts,
      show altRange2 '3' '3' '0' '1' (digitChar (18 / 10) :: digitChar (18 % 10) :: rest) = none from rfl,
      show altRange2 '1' '2' '0' '9' (digitChar (18 / 10) :: digitChar (18 % 10) :: rest) = some (18, rest) from rfl,
      hK]
  · simp only [altsDay,
      tryAlts,
      show altRange2 '3' '3' '0' '1' (digitChar (19 / 10) :: digitChar (19 % 10) :: rest) = none from rfl,
      show altRange2 '1' '2' '0' '9' (digitChar (19 / 10) :: digitChar (19 % 10) :: rest) = some (19, rest) from rfl,
      hK]
  · simp only [altsDay,
      tryAlts,
      show altRange2 '3' '3' '0' '1' (digitChar (20 / 10) :: digitChar (20 % 10) :: rest) = none from rfl,
      show altRange2 '1' '2' '0' '9' (digitChar (20 / 10) :: digitChar (20 % 10) :: rest) = some (20, rest) from rfl,
      hK]
  · simp only [altsDay,
      tryAlts,
      show altRange2 '3' '3' '0' '1' (digitChar (21 / 10) :: digitChar (21 % 10) :: rest) = none from rfl,
      show altRange2 '1' '2' '0' '9' (digitChar (21 / 10) :: digitChar (21 % 10) :: rest) = some (21, rest) from rfl,
      hK]
  · simp only [altsDay,
      tryAlts,
      show altRange2 '3' '3' '0' '1' (digitChar (22 / 10) :: digitChar (22 % 10) :: rest) = none from rfl,
      show altRange2 '1' '2' '0' '9' (digitChar (22 / 10) :: digitChar (22 % 10) :: rest) = some (22, rest) from rfl,
      hK]
  · simp only [altsDay,
      tryAlts,
      show altRange2 '3' '3' '0' '1' (digitChar (23 / 10) :: digitChar (23 % 10) :: rest) = none from rfl,
      show altRange2 '1' '2' '0' '9' (digitChar (23 / 10) :: digitChar (23 % 10) :: rest) = some (23, rest) from rfl,
      hK]
  · simp only [altsDay,
      tryAlts,
      show altRange2 '3' '3' '0' '1' (digitChar (24 / 10) :: digitChar (24 % 10) :: rest) = none from rfl,
      show altRange2 '1' '2' '0' '9' (digitChar (24 / 10) :: digitChar (24 % 10) :: rest) = some (24, rest) from rfl,
      hK]
  · simp only [altsDay,
      tryAlts,
      show altRange2 '3' '3' '0' '1' (digitChar (25 / 10) :: digitChar (25 % 10) :: rest) = none from rfl,
      show altRange2 '1' '2' '0' '9' (digitChar (25 / 10) :: digitChar (25 % 10) :: rest) = some (25, rest) from rfl,
      hK]
  · simp only [altsDay,
      tryAlts,
      show altRange2 '3' '3' '0' '1' (digitChar (26 / 10) :: digitChar (26 % 10) :: rest) = none from rfl,
      show altRange2 '1' '2' '0' '9' (digitChar (26 / 10) :: digitChar (26 % 10) :: rest) = some (26, rest) from rfl,
      hK]
  · simp only [altsDay,
      tryAlts,
      show altRange2 '3' '3' '0' '1' (digitChar (27 / 10) :: digitChar (27 % 10) :: rest) = none from rfl,
      show altRange2 '1' '2' '0' '9' (digitChar (27 / 10) :: digitChar (27 % 10) :: rest) = some (27, rest) from rfl,
      hK]
  · simp only [altsDay,
      tryAlts,
      show altRange2 '3' '3' '0' '1' (digitChar (28 / 10) :: digitChar (28 % 10) :: rest) = none from rfl,
      show altRange2 '1' '2' '0' '9' (digitChar (28 / 10) :: digitChar (28 % 10) :: rest) = some (28, rest) from rfl,
      hK]
  · simp only [altsDay,
      tryAlts,
      show altRange2 '3' '3' '0' '1' (digitChar (29 / 10) :: digitChar (29 % 10) :: rest) = none from rfl,
      show altRange2 '1' '2' '0' '9' (digitChar (29 / 10) :: digitChar (29 % 10) :: rest) = some (29, rest) from rfl,
      hK]
  · simp only [altsDay,
      tryAlts,
      show altRange2 '3' '3' '0' '1' (digitChar (30 / 10) :: digitChar (30 % 10) :: rest) = some (30, rest) from rfl,
      hK]
  · simp only [altsDay,
      tryAlts,
      show altRange2 '3' '3' '0' '1' (digitChar (31 / 10) :: digitChar (31 % 10) :: rest) = some (31, rest) from rfl,
      hK]

theorem hourCommit {α : Type} (K : ℕ → List Char → Option α) (H : ℕ) (h2 : H ≤ 23)
    (rest : List Char) (res : α) (hK : K H rest = some res) :
    tryAlts altsHour K (digitChar (H / 10) :: digitChar (H % 10) :: rest) = some res := by
  interval_cases H
  · simp only [altsHour,
      tryAlts,
      show altRange2 '2' '2' '0' '3' (digitChar (0 / 10) :: digitChar (0 % 10) :: rest) = none from rfl,
      show altRange2 '0' '1' '0' '9' (digitChar (0 / 10) :: digitChar (0 % 10) :: rest) = some (0, rest) from rfl,
      hK]
  · simp only [altsHour,
      tryAlts,
      show altRange2 '2' '2' '0' '3' (digitChar (1 / 10) :: digitChar (1 % 10) :: rest) = none from rfl,
      show altRange2 '0' '1' '0' '9' (digitChar (1 / 10) :: digitChar (1 % 10) :: rest) = some (1, rest) from rfl,
      hK]
  · simp only [altsHour,
      tryAlts,
      show altRange2 '2' '2' '0' '3' (digitChar (2 / 10) :: digitChar (2 % 10) :: rest) = none from rfl,
      show altRange2 '0' '1' '0' '9' (digitChar (2 / 10) :: digitChar (2 % 10) :: rest) = some (2, rest) from rfl,
      hK]
  · simp only [altsHour,
      tryAlts,
      show altRange2 '2' '2' '0' '3' (digitChar (3 / 10) :: digitChar (3 % 10) :: rest) = none from rfl,
      show altRange2 '0' '1' '0' '9' (digitChar (3 / 10) :: digitChar (3 % 10) :: rest) = some (3, rest) from rfl,
      hK]
  · simp only [altsHour,
      tryAlts,
      show altRange2 '2' '2' '0' '3' (digitChar (4 / 10) :: digitChar (4 % 10) :: rest) = none from rfl,
      show altRange2 '0' '1' '0' '9' (digitChar (4 / 10) :: digitChar (4 % 10) :: rest) = some (4, rest) from rfl,
      hK]
  · simp only [altsHour,
      tryAlts,
      show altRange2 '2' '2' '0' '3' (digitChar (5 / 10) :: digitChar (5 % 10) :: rest) = none from rfl,
      show altRange2 '0' '1' '0' '9' (digitChar (5 / 10) :: digitChar (5 % 10) :: rest) = some (5, rest) from rfl,
      hK]
  · simp only [altsHour,
      tryAlts,
      show altRange2 '2' '2' '0' '3' (digitChar (6 / 10) :: digitChar (6 % 10) :: rest) = none from rfl,
      show altRange2 '0' '1' '0' '9' (digitChar (6 / 10) :: digitChar (6 % 10) :: rest) = some (6, rest) from rfl,
      hK]
  · simp only [altsHour,
      tryAlts,
      show altRange2 '2' '2' '0' '3' (digitChar (7 / 10) :: digitChar (7 % 10) :: rest) = none from rfl,
      show altRange2 '0' '1' '0' '9' (digitChar (7 / 10) :: digitChar (7 % 10) :: rest) = some (7, rest) from rfl,
      hK]
  · simp only [altsHour,
      tryAlts,
      show altRange2 '2' '2' '0' '3' (digitChar (8 / 10) :: digitChar (8 % 10) :: rest) = none from rfl,
      show altRange2 '0' '1' '0' '9' (digitChar (8 / 10) :: digitChar (8 % 10) :: rest) = some (8, rest) from rfl,
      hK]
  · simp only [altsHour,
      tryAlts,
      show altRange2 '2' '2' '0' '3' (digitChar (9 / 10) :: digitChar (9 % 10) :: rest) = none from rfl,
      show altRange2 '0' '1' '0' '9' (digitChar (9 / 10) :: digitChar (9 % 10) :: rest) = some (9, rest) from rfl,
      hK]
  · simp only [altsHour,
      tryAlts,
      show altRange2 '2' '2' '0' '3' (digitChar (10 / 10) :: digitChar (10 % 10) :: rest) = none from rfl,
      show altRange2 '0' '1' '0' '9' (digitChar (10 / 10) :: digitChar (10 % 10) :: rest) = some (10, rest) from rfl,
      hK]
  · simp only [altsHour,
      tryAlts,
      show altRange2 '2' '2' '0' '3' (digitChar (11 / 10) :: digitChar (11 % 10) :: rest) = none from rfl,
      show altRange2 '0' '1' '0' '9' (digitChar (11 / 10) :: digitChar (11 % 10) :: rest) = some (11, rest) from rfl,
      hK]
  · simp only [altsHour,
      tryAlts,
      show altRange2 '2' '2' '0' '3' (digitChar (12 / 10) :: digitChar (12 % 10) :: rest) = none from rfl,
      show altRange2 '0' '1' '0' '9' (digitChar (12 / 10) :: digitChar (12 % 10) :: rest) = some (12, rest) from rfl,
      hK]
  · simp only [altsHour,
      tryAlts,
      show altRange2 '2' '2' '0' '3' (digitChar (13 / 10) :: digitChar (13 % 10) :: rest) = none from rfl,
      show altRange2 '0' '1' '0' '9' (digitChar (13 / 10) :: digitChar (13 % 10) :: rest) = some (13, rest) from rfl,
      hK]
  · simp only [altsHour,
      tryAlts,
      show altRange2 '2' '2' '0' '3' (digitChar (14 / 10) :: digitChar (14 % 10) :: rest) = none from rfl,
      show altRange2 '0' '1' '0' '9' (digitChar (14 / 10) :: digitChar (14 % 10) :: rest) = some (14, rest) from rfl,
      hK]
  · simp only [altsHour,
      tryAlts,
      show altRange2 '2' '2' '0' '3' (digitChar (15 / 10) :: digitChar (15 % 10) :: rest) = none from rfl,
      show altRange2 '0' '1' '0' '9' (digitChar (15 / 10) :: digitChar (15 % 10) :: rest) = some (15, rest) from rfl,
      hK]
  · simp only [altsHour,
      tryAlts,
      show altRange2 '2' '2' '0' '3' (digitChar (16 / 10) :: digitChar (16 % 10) :: rest) = none from rfl,
      show altRange2 '0' '1' '0' '9' (digitChar (16 / 10) :: digitChar (16 % 10) :: rest) = some (16, rest) from rfl,
      hK]
  · simp only [altsHour,
      tryAlts,
      show altRange2 '2' '2' '0' '3' (digitChar (17 / 10) :: digitChar (17 % 10) :: rest) = none from rfl,
      show altRange2 '0' '1' '0' '9' (digitChar (17 / 10) :: digitChar (17 % 10) :: rest) = some (17, rest) from rfl,
      hK]
  · simp only [altsHour,
      tryAlts,
      show altRange2 '2' '2' '0' '3' (digitChar (18 / 10) :: digitChar (18 % 10) :: rest) = none from rfl,
      show altRange2 '0' '1' '0' '9' (digitChar (18 / 10) :: digitChar (18 % 10) :: rest) = some (18, rest) from rfl,
      hK]
  · simp only [altsHour,
      tryAlts,
      show altRange2 '2' '2' '0' '3' (digitChar (19 / 10) :: digitChar (19 % 10) :: rest) = none from rfl,
      show altRange2 '0' '1' '0' '9' (digitChar (19 / 10) :: digitChar (19 % 10) :: rest) = some (19, rest) from rfl,
      hK]
  · simp only [altsHour,
      tryAlts,
      show altRange2 '2' '2' '0' '3' (digitChar (20 / 10) :: digitChar (20 % 10) :: rest) = some (20, rest) from rfl,
      hK]
  · simp only [altsHour,
      tryAlts,
      show altRange2 '2' '2' '0' '3' (digitChar (21 / 10) :: digitChar (21 % 10) :: rest) = some (21, rest) from rfl,
      hK]
  · simp only [altsHour,
      tryAlts,
      show altRange2 '2' '2' '0' '3' (digitChar (22 / 10) :: digitChar (22 % 10) :: rest) = some (22, rest) from rfl,
      hK]
  · simp only [altsHour,
      tryAlts,
      show altRange2 '2' '2' '0' '3' (digitChar (23 / 10) :: digitChar (23 % 10) :: rest) = some (23, rest) from rfl,
      hK]

theorem minCommit {α : Type} (K : ℕ → List Char → Option α) (Mi : ℕ) (h2 : Mi ≤ 59)
    (rest : List Char) (res : α) (hK : K Mi rest = some res) :
    tryAlts altsMin K (digitChar (Mi / 10) :: digitChar (Mi % 10) :: rest) = some res := by
  interval_cases Mi
  · simp only [altsMin,
      tryAlts,
      show altRange2 '0' '5' '0' '9' (digitChar (0 / 10) :: digitChar (0 % 10) :: rest) = some (0, rest) from rfl,
      hK]
  · simp only [altsMin,
      tryAlts,
      show altRange2 '0' '5' '0' '9' (digitChar (1 / 10) :: digitChar (1 % 10) :: rest) = some (1, rest) from rfl,
      hK]
  · simp only [altsMin,
      tryAlts,
      show altRange2 '0' '5' '0' '9' (digitChar (2 / 10) :: digitChar (2 % 10) :: rest) = some (2, rest) from rfl,
      hK]
  · simp only [altsMin,
      tryAlts,
      show altRange2 '0' '5' '0' '9' (digitChar (3 / 10) :: digitChar (3 % 10) :: rest) = some (3, rest) from rfl,
      hK]
  · simp only [altsMin,
      tryAlts,
      show altRange2 '0' '5' '0' '9' (digitChar (4 / 10) :: digitChar (4 % 10) :: rest) = some (4, rest) from rfl,
      hK]
  · simp only [altsMin,
      tryAlts,
      show altRange2 '0' '5' '0' '9' (digitChar (5 / 10) :: digitChar (5 % 10) :: rest) = some (5, rest) from rfl,
      hK]
  · simp only [altsMin,
      tryAlts,
      show altRange2 '0' '5' '0' '9' (digitChar (6 / 10) :: digitChar (6 % 10) :: rest) = some (6, rest) from rfl,
      hK]
  · simp only [altsMin,
      tryAlts,
      show altRange2 '0' '5' '0' '9' (digitChar (7 / 10) :: digitChar (7 % 10) :: rest) = some (7, rest) from rfl,
      hK]
  · simp only [altsMin,
      tryAlts,
      show altRange2 '0' '5' '0' '9' (digitChar (8 / 10) :: digitChar (8 % 10) :: rest) = some (8, rest) from rfl,
      hK]
  · simp only [altsMin,
      tryAlts,
      show altRange2 '0' '5' '0' '9' (digitChar (9 / 10) :: digitChar (9 % 10) :: rest) = some (9, rest) from rfl,
      hK]
  · simp only [altsMin,
      tryAlts,
      show altRange2 '0' '5' '0' '9' (digitChar (10 / 10) :: digitChar (10 % 10) :: rest) = some (10, rest) from rfl,
      hK]
  · simp only [altsMin,
      tryAlts,
      show altRange2 '0' '5' '0' '9' (digitChar (11 / 10) :: digitChar (11 % 10) :: rest) = some (11, rest) from rfl,
      hK]
  · simp only [altsMin,
      tryAlts,
      show altRange2 '0' '5' '0' '9' (digitChar (12 / 10) :: digitChar (12 % 10) :: rest) = some (12, rest) from rfl,
      hK]
  · simp only [altsMin,
      tryAlts,
      show altRange2 '0' '5' '0' '9' (digitChar (13 / 10) :: digitChar (13 % 10) :: rest) = some (13, rest) from rfl,
      hK]
  · simp only [altsMin,
      tryAlts,
      show altRange2 '0' '5' '0' '9' (digitChar (14 / 10) :: digitChar (14 % 10) :: rest) = some (14, rest) from rfl,
      hK]
  · simp only [altsMin,
      tryAlts,
      show altRange2 '0' '5' '0' '9' (digitChar (15 / 10) :: digitChar (15 % 10) :: rest) = some (15, rest) from rfl,
      hK]
  · simp only [altsMin,
      tryAlts,
      show altRange2 '0' '5' '0' '9' (digitChar (16 / 10) :: digitChar (16 % 10) :: rest) = some (16, rest) from rfl,
      hK]
  · simp only [altsMin,
      tryAlts,
      show altRange2 '0' '5' '0' '9' (digitChar (17 / 10) :: digitChar (17 % 10) :: rest) = some (17, rest) from rfl,
      hK]
  · simp only [altsMin,
      tryAlts,
      show altRange2 '0' '5' '0' '9' (digitChar (18 / 10) :: digitChar (18 % 10) :: rest) = some (18, rest) from rfl,
      hK]
  · simp only [altsMin,
      tryAlts,
      show altRange2 '0' '5' '0' '9' (digitChar (19 / 10) :: digitChar (19 % 10) :: rest) = some (19, rest) from rfl,
      hK]
  · simp only [altsMin,
      tryAlts,
      show altRange2 '0' '5' '0' '9' (digitChar (20 / 10) :: digitChar (20 % 10) :: rest) = some (20, rest) from rfl,
      hK]
  · simp only [altsMin,
      tryAlts,
      show altRange2 '0' '5' '0' '9' (digitChar (21 / 10) :: digitChar (21 % 10) :: rest) = some (21, rest) from rfl,
      hK]
  · simp only [altsMin,
      tryAlts,
      show altRange2 '0' '5' '0' '9' (digitChar (22 / 10) :: digitChar (22 % 10) :: rest) = some (22, rest) from rfl,
      hK]
  · simp only [altsMin,
      tryAlts,
      show altRange2 '0' '5' '0' '9' (digitChar (23 / 10) :: digitChar (23 % 10) :: rest) = some (23, rest) from rfl,
      hK]
  · simp only [altsMin,
      tryAlts,
      show altRange2 '0' '5' '0' '9' (digitChar (24 / 10) :: digitChar (24 % 10) :: rest) = some (24, rest) from rfl,
      hK]
  · simp only [altsMin,
      tryAlts,
      show altRange2 '0' '5' '0' '9' (digitChar (25 / 10) :: digitChar (25 % 10) :: rest) = some (25, rest) from rfl,
      hK]
  · simp only [altsMin,
      tryAlts,
      show altRange2 '0' '5' '0' '9' (digitChar (26 / 10) :: digitChar (26 % 10) :: rest) = some (26, rest) from rfl,
      hK]
  · simp only [altsMin,
      tryAlts,
      show altRange2 '0' '5' '0' '9' (digitChar (27 / 10) :: digitChar (27 % 10) :: rest) = some (27, rest) from rfl,
      hK]
  · simp only [altsMin,
      tryAlts,
      show altRange2 '0' '5' '0' '9' (digitChar (28 / 10) :: digitChar (28 % 10) :: rest) = some (28, rest) from rfl,
      hK]
  · simp only [altsMin,
      tryAlts,
      show altRange2 '0' '5' '0' '9' (digitChar (29 / 10) :: digitChar (29 % 10) :: rest) = some (29, rest) from rfl,
      hK]
  · simp only [altsMin,
      tryAlts,
      show altRange2 '0' '5' '0' '9' (digitChar (30 / 10) :: digitChar (30 % 10) :: rest) = some (30, rest) from rfl,
      hK]
  · simp only [altsMin,
      tryAlts,
      show altRange2 '0' '5' '0' '9' (digitChar (31 / 10) :: digitChar (31 % 10) :: rest) = some (31, rest) from rfl,
      hK]
  · simp only [altsMin,
      tryAlts,
      show altRange2 '0' '5' '0' '9' (digitChar (32 / 10) :: digitChar (32 % 10) :: rest) = some (32, rest) from rfl,
      hK]
  · simp only [altsMin,
      tryAlts,
      show altRange2 '0' '5' '0' '9' (digitChar (33 / 10) :: digitChar (33 % 10) :: rest) = some (33, rest) from rfl,
      hK]
  · simp only [altsMin,
      tryAlts,
      show altRange2 '0' '5' '0' '9' (digitChar (34 / 10) :: digitChar (34 % 10) :: rest) = some (34, rest) from rfl,
      hK]
  · simp only [altsMin,
      tryAlts,
      show altRange2 '0' '5' '0' '9' (digitChar (35 / 10) :: digitChar (35 % 10) :: rest) = some (35, rest) from rfl,
      hK]
  · simp only [altsMin,
      tryAlts,
      show altRange2 '0' '5' '0' '9' (digitChar (36 / 10) :: digitChar (36 % 10) :: rest) = some (36, rest) from rfl,
      hK]
  · simp only [altsMin,
      tryAlts,
      show altRange2 '0' '5' '0' '9' (digitChar (37 / 10) :: digitChar (37 % 10) :: rest) = some (37, rest) from rfl,
      hK]
  · simp only [altsMin,
      tryAlts,
      show altRange2 '0' '5' '0' '9' (digitChar (38 / 10) :: digitChar (38 % 10) :: rest) = some (38, rest) from rfl,
      hK]
  · simp only [altsMin,
      tryAlts,
      show altRange2 '0' '5' '0' '9' (digitChar (39 / 10) :: digitChar (39 % 10) :: rest) = some (39, rest) from rfl,
      hK]
  · simp only [altsMin,
      tryAlts,
      show altRange2 '0' '5' '0' '9' (digitChar (40 / 10) :: digitChar (40 % 10) :: rest) = some (40, rest) from rfl,
      hK]
  · simp only [altsMin,
      tryAlts,
      show altRange2 '0' '5' '0' '9' (digitChar (41 / 10) :: digitChar (41 % 10) :: rest) = some (41, rest) from rfl,
      hK]
  · simp only [altsMin,
      tryAlts,
      show altRange2 '0' '5' '0' '9' (digitChar (42 / 10) :: digitChar (42 % 10) :: rest) = some (42, rest) from rfl,
      hK]
  · simp only [altsMin,
      tryAlts,
      show altRange2 '0' '5' '0' '9' (digitChar (43 / 10) :: digitChar (43 % 10) :: rest) = some (43, rest) from rfl,
      hK]
  · simp only [altsMin,
      tryAlts,
      show altRange2 '0' '5' '0' '9' (digitChar (44 / 10) :: digitChar (44 % 10) :: rest) = some (44, rest) from rfl,
      hK]
  · simp only [altsMin,
      tryAlts,
      show altRange2 '0' '5' '0' '9' (digitChar (45 / 10) :: digitChar (45 % 10) :: rest) = some (45, rest) from rfl,
      hK]
  · simp only [altsMin,
      tryAlts,
      show altRange2 '0' '5' '0' '9' (digitChar (46 / 10) :: digitChar (46 % 10) :: rest) = some (46, rest) from rfl,
      hK]
  · simp only [altsMin,
      tryAlts,
      show altRange2 '0' '5' '0' '9' (digitChar (47 / 10) :: digitChar (47 % 10) :: rest) = some (47, rest) from rfl,
      hK]
  · simp only [altsMin,
      tryAlts,
      show altRange2 '0' '5' '0' '9' (digitChar (48 / 10) :: digitChar (48 % 10) :: rest) = some (48, rest) from rfl,
      hK]
  · simp only [altsMin,
      tryAlts,
      show altRange2 '0' '5' '0' '9' (digitChar (49 / 10) :: digitChar (49 % 10) :: rest) = some (49, rest) from rfl,
      hK]
  · simp only [altsMin,
      tryAlts,
      show altRange2 '0' '5' '0' '9' (digitChar (50 / 10) :: digitChar (50 % 10) :: rest) = some (50, rest) from rfl,
      hK]
  · simp only [altsMin,
      tryAlts,
      show altRange2 '0' '5' '0' '9' (digitChar (51 / 10) :: digitChar (51 % 10) :: rest) = some (51, rest) from rfl,
      hK]
  · simp only [altsMin,
      tryAlts,
      show altRange2 '0' '5' '0' '9' (digitChar (52 / 10) :: digitChar (52 % 10) :: rest) = some (52, rest) from rfl,
      hK]
  · simp only [altsMin,
      tryAlts,
      show altRange2 '0' '5' '0' '9' (digitChar (53 / 10) :: digitChar (53 % 10) :: rest) = some (53, rest) from rfl,
      hK]
  · simp only [altsMin,
      tryAlts,
      show altRange2 '0' '5' '0' '9' (digitChar (54 / 10) :: digitChar (54 % 10) :: rest) = some (54, rest) from rfl,
      hK]
  · simp only [altsMin,
      tryAlts,
      show altRange2 '0' '5' '0' '9' (digitChar (55 / 10) :: digitChar (55 % 10) :: rest) = some (55, rest) from rfl,
      hK]
  · simp only [altsMin,
      tryAlts,
      show altRange2 '0' '5' '0' '9' (digitChar (56 / 10) :: digitChar (56 % 10) :: rest) = some (56, rest) from rfl,
      hK]
  · simp only [altsMin,
      tryAlts,
      show altRange2 '0' '5' '0' '9' (digitChar (57 / 10) :: digitChar (57 % 10) :: rest) = some (57, rest) from rfl,
      hK]
  · simp only [altsMin,
      tryAlts,
      show altRange2 '0' '5' '0' '9' (digitChar (58 / 10) :: digitChar (58 % 10) :: rest) = some (58, rest) from rfl,
      hK]
  · simp only [altsMin,
      tryAlts,
      show altRange2 '0' '5' '0' '9' (digitChar (59 / 10) :: digitChar (59 % 10) :: rest) = some (59, rest) from rfl,
      hK]

theorem secCommit {α : Type} (K : ℕ → List Char → Option α) (S : ℕ) (h2 : S ≤ 59)
    (rest : List Char) (res : α) (hK : K S rest = some res) :
    tryAlts altsSec K (digitChar (S / 10) :: digitChar (S % 10) :: rest) = some res := by
  interval_cases S
  · simp only [altsSec,
      tryAlts,
      show altRange2 '6' '6' '0' '1' (digitChar (0 / 10) :: digitChar (0 % 10) :: rest) = none from rfl,
      show altRange2 '0' '5' '0' '9' (digitChar (0 / 10) :: digitChar (0 % 10) :: rest) = some (0, rest) from rfl,
      hK]
  · simp only [altsSec,
      tryAlts,
      show altRange2 '6' '6' '0' '1' (digitChar (1 / 10) :: digitChar (1 % 10) :: rest) = none from rfl,
      show altRange2 '0' '5' '0' '9' (digitChar (1 / 10) :: digitChar (1 % 10) :: rest) = some (1, rest) from rfl,
      hK]
  · simp only [altsSec,
      tryAlts,
      show altRange2 '6' '6' '0' '1' (digitChar (2 / 10) :: digitChar (2 % 10) :: rest) = none from rfl,
      show altRange2 '0' '5' '0' '9' (digitChar (2 / 10) :: digitChar (2 % 10) :: rest) = some (2, rest) from rfl,
      hK]
  · simp only [altsSec,
      tryAlts,
      show altRange2 '6' '6' '0' '1' (digitChar (3 / 10) :: digitChar (3 % 10) :: rest) = none from rfl,
      show altRange2 '0' '5' '0' '9' (digitChar (3 / 10) :: digitChar (3 % 10) :: rest) = some (3, rest) from rfl,
      hK]
  · simp only [altsSec,
      tryAlts,
      show altRange2 '6' '6' '0' '1' (digitChar (4 / 10) :: digitChar (4 % 10) :: rest) = none from rfl,
      show altRange2 '0' '5' '0' '9' (digitChar (4 / 10) :: digitChar (4 % 10) :: rest) = some (4, rest) from rfl,
      hK]
  · simp only [altsSec,
      tryAlts,
      show altRange2 '6' '6' '0' '1' (digitChar (5 / 10) :: digitChar (5 % 10) :: rest) = none from rfl,
      show altRange2 '0' '5' '0' '9' (digitChar (5 / 10) :: digitChar (5 % 10) :: rest) = some (5, rest) from rfl,
      hK]
  · simp only [altsSec,
      tryAlts,
      show altRange2 '6' '6' '0' '1' (digitChar (6 / 10) :: digitChar (6 % 10) :: rest) = none from rfl,
      show altRange2 '0' '5' '0' '9' (digitChar (6 / 10) :: digitChar (6 % 10) :: rest) = some (6, rest) from rfl,
      hK]
  · simp only [altsSec,
      tryAlts,
      show altRange2 '6' '6' '0' '1' (digitChar (7 / 10) :: digitChar (7 % 10) :: rest) = none from rfl,
      show altRange2 '0' '5' '0' '9' (digitChar (7 / 10) :: digitChar (7 % 10) :: rest) = some (7, rest) from rfl,
      hK]
  · simp only [altsSec,
      tryAlts,
      show altRange2 '6' '6' '0' '1' (digitChar (8 / 10) :: digitChar (8 % 10) :: rest) = none from rfl,
      show altRange2 '0' '5' '0' '9' (digitChar (8 / 10) :: digitChar (8 % 10) :: rest) = some (8, rest) from rfl,
      hK]
  · simp only [altsSec,
      tryAlts,
      show altRange2 '6' '6' '0' '1' (digitChar (9 / 10) :: digitChar (9 % 10) :: rest) = none from rfl,
      show altRange2 '0' '5' '0' '9' (digitChar (9 / 10) :: digitChar (9 % 10) :: rest) = some (9, rest) from rfl,
      hK]
  · simp only [altsSec,
      tryAlts,
      show altRange2 '6' '6' '0' '1' (digitChar (10 / 10) :: digitChar (10 % 10) :: rest) = none from rfl,
      show altRange2 '0' '5' '0' '9' (digitChar (10 / 10) :: digitChar (10 % 10) :: rest) = some (10, rest) from rfl,
      hK]
  · simp only [altsSec,
      tryAlts,
      show altRange2 '6' '6' '0' '1' (digitChar (11 / 10) :: digitChar (11 % 10) :: rest) = none from rfl,
      show altRange2 '0' '5' '0' '9' (digitChar (11 / 10) :: digitChar (11 % 10) :: rest) = some (11, rest) from rfl,
      hK]
  · simp only [altsSec,
      tryAlts,
      show altRange2 '6' '6' '0' '1' (digitChar (12 / 10) :: digitChar (12 % 10) :: rest) = none from rfl,
      show altRange2 '0' '5' '0' '9' (digitChar (12 / 10) :: digitChar (12 % 10) :: rest) = some (12, rest) from rfl,
      hK]
  · simp only [altsSec,
      tryAlts,
      show altRange2 '6' '6' '0' '1' (digitChar (13 / 10) :: digitChar (13 % 10) :: rest) = none from rfl,
      show altRange2 '0' '5' '0' '9' (digitChar (13 / 10) :: digitChar (13 % 10) :: rest) = some (13, rest) from rfl,
      hK]
  · simp only [altsSec,
      tryAlts,
      show altRange2 '6' '6' '0' '1' (digitChar (14 / 10) :: digitChar (14 % 10) :: rest) = none from rfl,
      show altRange2 '0' '5' '0' '9' (digitChar (14 / 10) :: digitChar (14 % 10) :: rest) = some (14, rest) from rfl,
      hK]
  · simp only [altsSec,
      tryAlts,
      show altRange2 '6' '6' '0' '1' (digitChar (15 / 10) :: digitChar (15 % 10) :: rest) = none from rfl,
      show altRange2 '0' '5' '0' '9' (digitChar (15 / 10) :: digitChar (15 % 10) :: rest) = some (15, rest) from rfl,
      hK]
  · simp only [altsSec,
      tryAlts,
      show altRange2 '6' '6' '0' '1' (digitChar (16 / 10) :: digitChar (16 % 10) :: rest) = none from rfl,
      show altRange2 '0' '5' '0' '9' (digitChar (16 / 10) :: digitChar (16 % 10) :: rest) = some (16, rest) from rfl,
      hK]
  · simp only [altsSec,
      tryAlts,
      show altRange2 '6' '6' '0' '1' (digitChar (17 / 10) :: digitChar (17 % 10) :: rest) = none from rfl,
      show altRange2 '0' '5' '0' '9' (digitChar (17 / 10) :: digitChar (17 % 10) :: rest) = some (17, rest) from rfl,
      hK]
  · simp only [altsSec,
      tryAlts,
      show altRange2 '6' '6' '0' '1' (digitChar (18 / 10) :: digitChar (18 % 10) :: rest) = none from rfl,
      show altRange2 '0' '5' '0' '9' (digitChar (18 / 10) :: digitChar (18 % 10) :: rest) = some (18, rest) from rfl,
      hK]
  · simp only [altsSec,
      tryAlts,
      show altRange2 '6' '6' '0' '1' (digitChar (19 / 10) :: digitChar (19 % 10) :: rest) = none from rfl,
      show altRange2 '0' '5' '0' '9' (digitChar (19 / 10) :: digitChar (19 % 10) :: rest) = some (19, rest) from rfl,
      hK]
  · simp only [altsSec,
      tryAlts,
      show altRange2 '6' '6' '0' '1' (digitChar (20 / 10) :: digitChar (20 % 10) :: rest) = none from rfl,
      show altRange2 '0' '5' '0' '9' (digitChar (20 / 10) :: digitChar (20 % 10) :: rest) = some (20, rest) from rfl,
      hK]
  · simp only [altsSec,
      tryAlts,
      show altRange2 '6' '6' '0' '1' (digitChar (21 / 10) :: digitChar (21 % 10) :: rest) = none from rfl,
      show altRange2 '0' '5' '0' '9' (digitChar (21 / 10) :: digitChar (21 % 10) :: rest) = some (21, rest) from rfl,
      hK]
  · simp only [altsSec,
      tryAlts,
      show altRange2 '6' '6' '0' '1' (digitChar (22 / 10) :: digitChar (22 % 10) :: rest) = none from rfl,
      show altRange2 '0' '5' '0' '9' (digitChar (22 / 10) :: digitChar (22 % 10) :: rest) = some (22, rest) from rfl,
      hK]
  · simp only [altsSec,
      tryAlts,
      show altRange2 '6' '6' '0' '1' (digitChar (23 / 10) :: digitChar (23 % 10) :: rest) = none from rfl,
      show altRange2 '0' '5' '0' '9' (digitChar (23 / 10) :: digitChar (23 % 10) :: rest) = some (23, rest) from rfl,
      hK]
  · simp only [altsSec,
      tryAlts,
      show altRange2 '6' '6' '0' '1' (digitChar (24 / 10) :: digitChar (24 % 10) :: rest) = none from rfl,
      show altRange2 '0' '5' '0' '9' (digitChar (24 / 10) :: digitChar (24 % 10) :: rest) = some (24, rest) from rfl,
      hK]
  · simp only [altsSec,
      tryAlts,
      show altRange2 '6' '6' '0' '1' (digitChar (25 / 10) :: digitChar (25 % 10) :: rest) = none from rfl,
      show altRange2 '0' '5' '0' '9' (digitChar (25 / 10) :: digitChar (25 % 10) :: rest) = some (25, rest) from rfl,
      hK]
  · simp only [altsSec,
      tryAlts,
      show altRange2 '6' '6' '0' '1' (digitChar (26 / 10) :: digitChar (26 % 10) :: rest) = none from rfl,
      show altRange2 '0' '5' '0' '9' (digitChar (26 / 10) :: digitChar (26 % 10) :: rest) = some (26, rest) from rfl,
      hK]
  · simp only [altsSec,
      tryAlts,
      show altRange2 '6' '6' '0' '1' (digitChar (27 / 10) :: digitChar (27 % 10) :: rest) = none from rfl,
      show altRange2 '0' '5' '0' '9' (digitChar (27 / 10) :: digitChar (27 % 10) :: rest) = some (27, rest) from rfl,
      hK]
  · simp only [altsSec,
      tryAlts,
      show altRange2 '6' '6' '0' '1' (digitChar (28 / 10) :: digitChar (28 % 10) :: rest) = none from rfl,
      show altRange2 '0' '5' '0' '9' (digitChar (28 / 10) :: digitChar (28 % 10) :: rest) = some (28, rest) from rfl,
      hK]
  · simp only [altsSec,
      tryAlts,
      show altRange2 '6' '6' '0' '1' (digitChar (29 / 10) :: digitChar (29 % 10) :: rest) = none from rfl,
      show altRange2 '0' '5' '0' '9' (digitChar (29 / 10) :: digitChar (29 % 10) :: rest) = some (29, rest) from rfl,
      hK]
  · simp only [altsSec,
      tryAlts,
      show altRange2 '6' '6' '0' '1' (digitChar (30 / 10) :: digitChar (30 % 10) :: rest) = none from rfl,
      show altRange2 '0' '5' '0' '9' (digitChar (30 / 10) :: digitChar (30 % 10) :: rest) = some (30, rest) from rfl,
      hK]
  · simp only [altsSec,
      tryAlts,
      show altRange2 '6' '6' '0' '1' (digitChar (31 / 10) :: digitChar (31 % 10) :: rest) = none from rfl,
      show altRange2 '0' '5' '0' '9' (digitChar (31 / 10) :: digitChar (31 % 10) :: rest) = some (31, rest) from rfl,
      hK]
  · simp only [altsSec,
      tryAlts,
      show altRange2 '6' '6' '0' '1' (digitChar (32 / 10) :: digitChar (32 % 10) :: rest) = none from rfl,
      show altRange2 '0' '5' '0' '9' (digitChar (32 / 10) :: digitChar (32 % 10) :: rest) = some (32, rest) from rfl,
      hK]
  · simp only [altsSec,
      tryAlts,
      show altRange2 '6' '6' '0' '1' (digitChar (33 / 10) :: digitChar (33 % 10) :: rest) = none from rfl,
      show altRange2 '0' '5' '0' '9' (digitChar (33 / 10) :: digitChar (33 % 10) :: rest) = some (33, rest) from rfl,
      hK]
  · simp only [altsSec,
      tryAlts,
      show altRange2 '6' '6' '0' '1' (digitChar (34 / 10) :: digitChar (34 % 10) :: rest) = none from rfl,
      show altRange2 '0' '5' '0' '9' (digitChar (34 / 10) :: digitChar (34 % 10) :: rest) = some (34, rest) from rfl,
      hK]
  · simp only [altsSec,
      tryAlts,
      show altRange2 '6' '6' '0' '1' (digitChar (35 / 10) :: digitChar (35 % 10) :: rest) = none from rfl,
      show altRange2 '0' '5' '0' '9' (digitChar (35 / 10) :: digitChar (35 % 10) :: rest) = some (35, rest) from rfl,
      hK]
  · simp only [altsSec,
      tryAlts,
      show altRange2 '6' '6' '0' '1' (digitChar (36 / 10) :: digitChar (36 % 10) :: rest) = none from rfl,
      show altRange2 '0' '5' '0' '9' (digitChar (36 / 10) :: digitChar (36 % 10) :: rest) = some (36, rest) from rfl,
      hK]
  · simp only [altsSec,
      tryAlts,
      show altRange2 '6' '6' '0' '1' (digitChar (37 / 10) :: digitChar (37 % 10) :: rest) = none from rfl,
      show altRange2 '0' '5' '0' '9' (digitChar (37 / 10) :: digitChar (37 % 10) :: rest) = some (37, rest) from rfl,
      hK]
  · simp only [altsSec,
      tryAlts,
      show altRange2 '6' '6' '0' '1' (digitChar (38 / 10) :: digitChar (38 % 10) :: rest) = none from rfl,
      show altRange2 '0' '5' '0' '9' (digitChar (38 / 10) :: digitChar (38 % 10) :: rest) = some (38, rest) from rfl,
      hK]
  · simp only [altsSec,
      tryAlts,
      show altRange2 '6' '6' '0' '1' (digitChar (39 / 10) :: digitChar (39 % 10) :: rest) = none from rfl,
      show altRange2 '0' '5' '0' '9' (digitChar (39 / 10) :: digitChar (39 % 10) :: rest) = some (39, rest) from rfl,
      hK]
  · simp only [altsSec,
      tryAlts,
      show altRange2 '6' '6' '0' '1' (digitChar (40 / 10) :: digitChar (40 % 10) :: rest) = none from rfl,
      show altRange2 '0' '5' '0' '9' (digitChar (40 / 10) :: digitChar (40 % 10) :: rest) = some (40, rest) from rfl,
      hK]
  · simp only [altsSec,
      tryAlts,
      show altRange2 '6' '6' '0' '1' (digitChar (41 / 10) :: digitChar (41 % 10) :: rest) = none from rfl,
      show altRange2 '0' '5' '0' '9' (digitChar (41 / 10) :: digitChar (41 % 10) :: rest) = some (41, rest) from rfl,
      hK]
  · simp only [altsSec,
      tryAlts,
      show altRange2 '6' '6' '0' '1' (digitChar (42 / 10) :: digitChar (42 % 10) :: rest) = none from rfl,
      show altRange2 '0' '5' '0' '9' (digitChar (42 / 10) :: digitChar (42 % 10) :: rest) = some (42, rest) from rfl,
      hK]
  · simp only [altsSec,
      tryAlts,
      show altRange2 '6' '6' '0' '1' (digitChar (43 / 10) :: digitChar (43 % 10) :: rest) = none from rfl,
      show altRange2 '0' '5' '0' '9' (digitChar (43 / 10) :: digitChar (43 % 10) :: rest) = some (43, rest) from rfl,
      hK]
  · simp only [altsSec,
      tryAlts,
      show altRange2 '6' '6' '0' '1' (digitChar (44 / 10) :: digitChar (44 % 10) :: rest) = none from rfl,
      show altRange2 '0' '5' '0' '9' (digitChar (44 / 10) :: digitChar (44 % 10) :: rest) = some (44, rest) from rfl,
      hK]
  · simp only [altsSec,
      tryAlts,
      show altRange2 '6' '6' '0' '1' (digitChar (45 / 10) :: digitChar (45 % 10) :: rest) = none from rfl,
      show altRange2 '0' '5' '0' '9' (digitChar (45 / 10) :: digitChar (45 % 10) :: rest) = some (45, rest) from rfl,
      hK]
  · simp only [altsSec,
      tryAlts,
      show altRange2 '6' '6' '0' '1' (digitChar (46 / 10) :: digitChar (46 % 10) :: rest) = none from rfl,
      show altRange2 '0' '5' '0' '9' (digitChar (46 / 10) :: digitChar (46 % 10) :: rest) = some (46, rest) from rfl,
      hK]
  · simp only [altsSec,
      tryAlts,
      show altRange2 '6' '6' '0' '1' (digitChar (47 / 10) :: digitChar (47 % 10) :: rest) = none from rfl,
      show altRange2 '0' '5' '0' '9' (digitChar (47 / 10) :: digitChar (47 % 10) :: rest) = some (47, rest) from rfl,
      hK]
  · simp only [altsSec,
      tryAlts,
      show altRange2 '6' '6' '0' '1' (digitChar (48 / 10) :: digitChar (48 % 10) :: rest) = none from rfl,
      show altRange2 '0' '5' '0' '9' (digitChar (48 / 10) :: digitChar (48 % 10) :: rest) = some (48, rest) from rfl,
      hK]
  · simp only [altsSec,
      tryAlts,
      show altRange2 '6' '6' '0' '1' (digitChar (49 / 10) :: digitChar (49 % 10) :: rest) = none from rfl,
      show altRange2 '0' '5' '0' '9' (digitChar (49 / 10) :: digitChar (49 % 10) :: rest) = some (49, rest) from rfl,
      hK]
  · simp only [altsSec,
      tryAlts,
      show altRange2 '6' '6' '0' '1' (digitChar (50 / 10) :: digitChar (50 % 10) :: rest) = none from rfl,
      show altRange2 '0' '5' '0' '9' (digitChar (50 / 10) :: digitChar (50 % 10) :: rest) = some (50, rest) from rfl,
      hK]
  · simp only [altsSec,
      tryAlts,
      show altRange2 '6' '6' '0' '1' (digitChar (51 / 10) :: digitChar (51 % 10) :: rest) = none from rfl,
      show altRange2 '0' '5' '0' '9' (digitChar (51 / 10) :: digitChar (51 % 10) :: rest) = some (51, rest) from rfl,
      hK]
  · simp only [altsSec,
      tryAlts,
      show altRange2 '6' '6' '0' '1' (digitChar (52 / 10) :: digitChar (52 % 10) :: rest) = none from rfl,
      show altRange2 '0' '5' '0' '9' (digitChar (52 / 10) :: digitChar (52 % 10) :: rest) = some (52, rest) from rfl,
      hK]
  · simp only [altsSec,
      tryAlts,
      show altRange2 '6' '6' '0' '1' (digitChar (53 / 10) :: digitChar (53 % 10) :: rest) = none from rfl,
      show altRange2 '0' '5' '0' '9' (digitChar (53 / 10) :: digitChar (53 % 10) :: rest) = some (53, rest) from rfl,
      hK]
  · simp only [altsSec,
      tryAlts,
      show altRange2 '6' '6' '0' '1' (digitChar (54 / 10) :: digitChar (54 % 10) :: rest) = none from rfl,
      show altRange2 '0' '5' '0' '9' (digitChar (54 / 10) :: digitChar (54 % 10) :: rest) = some (54, rest) from rfl,
      hK]
  · simp only [altsSec,
      tryAlts,
      show altRange2 '6' '6' '0' '1' (digitChar (55 / 10) :: digitChar (55 % 10) :: rest) = none from rfl,
      show altRange2 '0' '5' '0' '9' (digitChar (55 / 10) :: digitChar (55 % 10) :: rest) = some (55, rest) from rfl,
      hK]
  · simp only [altsSec,
      tryAlts,
      show altRange2 '6' '6' '0' '1' (digitChar (56 / 10) :: digitChar (56 % 10) :: rest) = none from rfl,
      show altRange2 '0' '5' '0' '9' (digitChar (56 / 10) :: digitChar (56 % 10) :: rest) = some (56, rest) from rfl,
      hK]
  · simp only [altsSec,
      tryAlts,
      show altRange2 '6' '6' '0' '1' (digitChar (57 / 10) :: digitChar (57 % 10) :: rest) = none from rfl,
      show altRange2 '0' '5' '0' '9' (digitChar (57 / 10) :: digitChar (57 % 10) :: rest) = some (57, rest) from rfl,
      hK]
  · simp only [altsSec,
      tryAlts,
      show altRange2 '6' '6' '0' '1' (digitChar (58 / 10) :: digitChar (58 % 10) :: rest) = none from rfl,
      show altRange2 '0' '5' '0' '9' (digitChar (58 / 10) :: digitChar (58 % 10) :: rest) = some (58, rest) from rfl,
      hK]
  · simp only [altsSec,
      tryAlts,
      show altRange2 '6' '6' '0' '1' (digitChar (59 / 10) :: digitChar (59 % 10) :: rest) = none from rfl,
      show altRange2 '0' '5' '0' '9' (digitChar (59 / 10) :: digitChar (59 % 10) :: rest) = some (59, rest) from rfl,
      hK]

theorem parse4Digits_digits (y : ℕ) (hy : y ≤ 9999) (rest : List Char) :
    parse4Digits (digitChar (y / 1000) :: digitChar (y / 100 % 10) :: digitChar (y / 10 % 10) ::
      digitChar (y % 10) :: rest) = some (y, rest) := by
  have b1 : y / 1000 ≤ 9 := by omega
  have b2 : y / 100 % 10 ≤ 9 := by omega
  have b3 : y / 10 % 10 ≤ 9 := by omega
  have b4 : y % 10 ≤ 9 := by omega
  unfold parse4Digits
  dsimp only
  rw [if_pos ⟨digitChar_isDigit b1, digitChar_isDigit b2, digitChar_isDigit b3,
    digitChar_isDigit b4⟩]
  rw [charVal_digitChar b1, charVal_digitChar b2, charVal_digitChar b3, charVal_digitChar b4]
  have hv : 1000 * (y / 1000) + 100 * (y / 100 % 10) + 10 * (y / 10 % 10) + y % 10 = y := by
    omega
  rw [hv]

theorem digits14_length (y m d H Mi S : ℕ) : (digits14 y m d H Mi S).length = 14 := rfl

theorem matchYmdHms_digits (y m d H Mi S : ℕ) (hy : y ≤ 9999) (hm1 : 1 ≤ m) (hm2 : m ≤ 12)
    (hd1 : 1 ≤ d) (hd2 : d ≤ 31) (hH : H ≤ 23) (hM : Mi ≤ 59) (hS : S ≤ 59) :
    matchYmdHms (digits14 y m d H Mi S) = some (y, m, d, H, Mi, S) := by
  unfold matchYmdHms digits14
  rw [parse4Digits_digits y hy]
  exact monthCommit _ m hm1 hm2 _ _
    (dayCommit _ d hd1 hd2 _ _
      (hourCommit _ H hH _ _
        (minCommit _ Mi hM _ _
          (secCommit _ S hS _ _ rfl))))

theorem strptimeYmdHms_digits (y m d H Mi S : ℕ) (hv : ValidDate y m d) (hH : H ≤ 23)
    (hM : Mi ≤ 59) (hS : S ≤ 59) :
    strptimeYmdHms (digits14 y m d H Mi S) = some (y, m, d, H, Mi, S) := by
  obtain ⟨v1, v2, v3, v4, v5, v6⟩ := hv
  have hd31 : d ≤ 31 := by
    have : daysInMonth y m ≤ 31 := by
      unfold daysInMonth
      split_ifs <;> omega
    omega
  unfold strptimeYmdHms
  rw [matchYmdHms_digits y m d H Mi S v2 v3 v4 v5 hd31 hH hM hS]
  dsimp only
  rw [if_pos ⟨⟨v1, v2, v3, v4, v5, v6⟩, hH, hM, hS⟩]

theorem digitChar_not_ws {k : ℕ} (h : k ≤ 9) : isPyWs (digitChar k) = false := by
  interval_cases k <;> decide

theorem charVal_le_of_isDigit {c : Char} (h : c.isDigit = true) : charVal c ≤ 9 := by
  unfold Char.isDigit at h
  simp only [Bool.and_eq_true, decide_eq_true_eq] at h
  have h3 : c.val.toNat ≤ 57 := UInt32.toNat_le_of_le (by norm_num) h.2
  unfold charVal Char.toNat
  omega

/-- Reduction of `convert_to_human_readable_date` on a family-A input with
a successfully parsed 14-digit timestamp: the result is determined by the
offset parse and the range check of the shifted instant. -/
theorem convertChars_famA (y m d H Mi S : ℕ) (hv : ValidDate y m d) (hH : H ≤ 23)
    (hM : Mi ≤ 59) (hS : S ≤ 59) (tz : List Char) :
    convertChars ('D' :: ':' :: (digits14 y m d H Mi S ++ tz)) =
      match parseHoursOffset tz with
      | none => .ok ""
      | some h =>
        if 0 ≤ tsSecs y m d H Mi S - h * 3600 ∧ tsSecs y m d H Mi S - h * 3600 ≤ (secsMax : ℤ)
        then
          .ok (formatDate (ord2ymd ((tsSecs y m d H Mi S - h * 3600).toNat / 86400 + 1)).1
            (ord2ymd ((tsSecs y m d H Mi S - h * 3600).toNat / 86400 + 1)).2.1
            (ord2ymd ((tsSecs y m d H Mi S - h * 3600).toNat / 86400 + 1)).2.2)
        else .error .overflow := by
  unfold convertChars
  rw [if_neg (by simp : ¬('D' :: ':' :: (digits14 y m d H Mi S ++ tz) = []))]
  have htake : ('D' :: ':' :: (digits14 y m d H Mi S ++ tz)).take 2 = ['D', ':'] := rfl
  rw [if_pos htake]
  have hdrop : ('D' :: ':' :: (digits14 y m d H Mi S ++ tz)).drop 2 = digits14 y m d H Mi S ++ tz :=
    rfl
  rw [hdrop]
  dsimp only
  rw [List.take_left' (digits14_length y m d H Mi S),
    List.drop_left' (digits14_length y m d H Mi S),
    strptimeYmdHms_digits y m d H Mi S hv hH hM hS]
  rfl

theorem pyIntChars_sign_digits (sgn : Char) (hs : sgn = '+' ∨ sgn = '-') (off : ℕ)
    (hoff : off ≤ 99) :
    pyIntChars [sgn, digitChar (off / 10), digitChar (off % 10)] = some (offSigned sgn off) := by
  have b1 : off / 10 ≤ 9 := by omega
  have b2 : off % 10 ≤ 9 := by omega
  have hd : pyIntDigits [digitChar (off / 10), digitChar (off % 10)] = some off := by
    unfold pyIntDigits pyDigitsVal pyDigitsVal
    dsimp only
    rw [if_pos (digitChar_isDigit b1)]
    rw [if_pos (digitChar_isDigit b2)]
    rw [charVal_digitChar b1, charVal_digitChar b2]
    have : 10 * (off / 10) + off % 10 = off := by omega
    rw [this]
  have hstrip : List.dropWhile isPyWs [sgn, digitChar (off / 10), digitChar (off % 10)] =
      [sgn, digitChar (off / 10), digitChar (off % 10)] := by
    rcases hs with h | h <;> subst h <;> rfl
  have htrail : dropTrailWs [sgn, digitChar (off / 10), digitChar (off % 10)] =
      [sgn, digitChar (off / 10), digitChar (off % 10)] := by
    unfold dropTrailWs
    have e1 : ([sgn, digitChar (off / 10), digitChar (off % 10)]).reverse =
        [digitChar (off % 10), digitChar (off / 10), sgn] := by simp
    rw [e1, List.dropWhile_cons, digitChar_not_ws b2]
    simp only [Bool.false_eq_true, if_false]
    simp
  rcases hs with h | h <;> subst h
  · unfold pyIntChars
    rw [hstrip, htrail]
    show (pyIntDigits [digitChar (off / 10), digitChar (off % 10)]).map (fun n => (n : Int)) =
      some (offSigned '+' off)
    rw [hd]
    rfl
  · unfold pyIntChars
    rw [hstrip, htrail]
    show (pyIntDigits [digitChar (off / 10), digitChar (off % 10)]).map (fun n => -(n : Int)) =
      some (offSigned '-' off)
    rw [hd]
    rfl

theorem parseHoursOffset_sign (sgn : Char) (hs : sgn = '+' ∨ sgn = '-') (off : ℕ)
    (hoff : off ≤ 99) (tail : List Char) :
    parseHoursOffset (sgn :: digitChar (off / 10) :: digitChar (off % 10) :: tail) =
      some (offSigned sgn off) := by
  unfold parseHoursOffset
  rw [if_neg (by simp : ¬(sgn :: digitChar (off / 10) :: digitChar (off % 10) :: tail = []))]
  have hz : ¬((sgn :: digitChar (off / 10) :: digitChar (off % 10) :: tail).head? = some 'Z') := by
    rcases hs with h | h <;> subst h <;> simp
  rw [if_neg hz]
  have hpm : (sgn :: digitChar (off / 10) :: digitChar (off % 10) :: tail).head? = some '+' ∨
      (sgn :: digitChar (off / 10) :: digitChar (off % 10) :: tail).head? = some '-' := by
    rcases hs with h | h <;> subst h
    · exact Or.inl rfl
    · exact Or.inr rfl
  rw [if_pos hpm]
  have ht : (sgn :: digitChar (off / 10) :: digitChar (off % 10) :: tail).take 3 =
      [sgn, digitChar (off / 10), digitChar (off % 10)] := rfl
  rw [ht]
  exact pyIntChars_sign_digits sgn hs off hoff

/-- C2 (amended): for every well-formed family-A input — `D:`, a 14-digit
valid timestamp, a sign, two offset digits, and an arbitrary ignored
tail — whose timestamp minus the signed hour offset stays within the
representable range, the conversion returns exactly the calendar day
containing the shifted instant (the day whose ordinal-second interval
covers it), printed with two-digit month and day and the unpadded decimal
year.  Outside that range the function raises `OverflowError` instead
(see the counterexample). -/
theorem c2_family_a_offset_subtraction (y m d H Mi S : ℕ) (hv : ValidDate y m d)
    (hH : H ≤ 23) (hM : Mi ≤ 59) (hS : S ≤ 59) (sgn : Char) (hs : sgn = '+' ∨ sgn = '-')
    (off : ℕ) (hoff : off ≤ 99) (tail : List Char)
    (hrange : 0 ≤ tsSecs y m d H Mi S - offSigned sgn off * 3600 ∧
      tsSecs y m d H Mi S - offSigned sgn off * 3600 ≤ (secsMax : ℤ)) :
    ∃ y2 m2 d2,
      convert_to_human_readable_date (famAInput y m d H Mi S sgn off tail) =
        .ok (formatDate y2 m2 d2) ∧
      ValidDate y2 m2 d2 ∧
      (((ymd2ord y2 m2 d2 - 1) * 86400 : ℕ) : ℤ) ≤
        tsSecs y m d H Mi S - offSigned sgn off * 3600 ∧
      tsSecs y m d H Mi S - offSigned sgn off * 3600 < ((ymd2ord y2 m2 d2 * 86400 : ℕ) : ℤ) := by
  have hconv :
      convert_to_human_readable_date (famAInput y m d H Mi S sgn off tail) =
        if 0 ≤ tsSecs y m d H Mi S - offSigned sgn off * 3600 ∧
            tsSecs y m d H Mi S - offSigned sgn off * 3600 ≤ (secsMax : ℤ) then
          .ok (formatDate
            (ord2ymd ((tsSecs y m d H Mi S - offSigned sgn off * 3600).toNat / 86400 + 1)).1
            (ord2ymd ((tsSecs y m d H Mi S - offSigned sgn off * 3600).toNat / 86400 + 1)).2.1
            (ord2ymd ((tsSecs y m d H Mi S - offSigned sgn off * 3600).toNat / 86400 + 1)).2.2)
        else .error .overflow := by
    show convertChars ('D' :: ':' :: (digits14 y m d H Mi S ++
        sgn :: digitChar (off / 10) :: digitChar (off % 10) :: tail)) = _
    rw [convertChars_famA y m d H Mi S hv hH hM hS]
    rw [parseHoursOffset_sign sgn hs off hoff tail]
  rw [hconv, if_pos hrange]
  have hT0 : 0 ≤ tsSecs y m d H Mi S - offSigned sgn off * 3600 := hrange.1
  have hT1 : (tsSecs y m d H Mi S - offSigned sgn off * 3600).toNat ≤ secsMax := by omega
  have ho1 : 1 ≤ (tsSecs y m d H Mi S - offSigned sgn off * 3600).toNat / 86400 + 1 := by omega
  have ho2 : (tsSecs y m d H Mi S - offSigned sgn off * 3600).toNat / 86400 + 1 ≤ maxOrd := by
    unfold secsMax at hT1
    unfold maxOrd at *
    omega
  obtain ⟨hvd, hord⟩ :=
    ord2ymd_spec ((tsSecs y m d H Mi S - offSigned sgn off * 3600).toNat / 86400 + 1) ho1 ho2
  refine ⟨_, _, _, rfl, hvd, ?_, ?_⟩
  · rw [hord]
    push_cast
    omega
  · rw [hord]
    push_cast
    omega

/-- C2 counterexample: on the well-formed family-A input
`D:99991231235959-01` (whose shifted instant falls past year 9999) the
function does not return any date: it raises `OverflowError`. -/
theorem c2_counterexample_overflow :
    convert_to_human_readable_date "D:99991231235959-01" = .error .overflow := by decide

theorem c2_witness :
    (∃ y2 m2 d2,
      convert_to_human_readable_date
          (famAInput 2023 6 15 12 0 0 '+' 5 [Char.ofNat 39, '0', '0', Char.ofNat 39]) =
        .ok (formatDate y2 m2 d2) ∧
      ValidDate y2 m2 d2 ∧
      (((ymd2ord y2 m2 d2 - 1) * 86400 : ℕ) : ℤ) ≤
        tsSecs 2023 6 15 12 0 0 - offSigned '+' 5 * 3600 ∧
      tsSecs 2023 6 15 12 0 0 - offSigned '+' 5 * 3600 <
        ((ymd2ord y2 m2 d2 * 86400 : ℕ) : ℤ)) ∧
    convert_to_human_readable_date
        (famAInput 2023 6 15 12 0 0 '+' 5 [Char.ofNat 39, '0', '0', Char.ofNat 39]) =
      .ok "2023-06-15" ∧
    convert_to_human_readable_date
        (famAInput 2023 6 15 2 0 0 '+' 5 [Char.ofNat 39, '0', '0', Char.ofNat 39]) =
      .ok "2023-06-14" := by
  refine ⟨?_, by decide, by decide⟩
  exact c2_family_a_offset_subtraction 2023 6 15 12 0 0 (by decide) (by decide) (by decide)
    (by decide) '+' (Or.inl rfl) 5 (by decide) [Char.ofNat 39, '0', '0', Char.ofNat 39]
    (by decide)

theorem parseHoursOffset_emptyTz : parseHoursOffset [] = some 0 := rfl

theorem parseHoursOffset_Z (cs : List Char) (h : cs.head? = some 'Z') :
    parseHoursOffset cs = some 0 := by
  cases cs with
  | nil => cases h
  | cons c rest =>
    have hc : c = 'Z' := by simpa using h
    subst hc
    rfl

theorem parseHoursOffset_other (cs : List Char) (hne : cs ≠ [])
    (hz : ¬cs.head? = some 'Z') (hpm : ¬(cs.head? = some '+' ∨ cs.head? = some '-')) :
    parseHoursOffset cs = none := by
  unfold parseHoursOffset
  rw [if_neg hne, if_neg hz, if_neg hpm]

theorem parseHoursOffset_pm (cs : List Char) (hpm : cs.head? = some '+' ∨ cs.head? = some '-') :
    parseHoursOffset cs = pyIntChars (cs.take 3) := by
  have hne : cs ≠ [] := by
    intro hnil
    subst hnil
    simp at hpm
  have hz : ¬cs.head? = some 'Z' := by
    rcases hpm with h | h <;> (rw [h]; simp)
  unfold parseHoursOffset
  rw [if_neg hne, if_neg hz, if_pos hpm]

theorem pyDigitsVal_single (acc : ℕ) : pyDigitsVal acc [] = some acc := rfl

theorem pyIntDigits_le_two (cs : List Char) (h2 : cs.length ≤ 2) (n : ℕ)
    (hn : pyIntDigits cs = some n) : n ≤ 99 := by
  cases cs with
  | nil => cases hn
  | cons c1 cs1 =>
    cases cs1 with
    | nil =>
      simp only [pyIntDigits] at hn
      by_cases hd : c1.isDigit = true
      · rw [if_pos hd] at hn
        unfold pyDigitsVal at hn
        have := charVal_le_of_isDigit hd
        obtain rfl : charVal c1 = n := by exact Option.some.inj hn
        omega
      · rw [if_neg hd] at hn
        cases hn
    | cons c2 cs2 =>
      cases cs2 with
      | nil =>
        simp only [pyIntDigits] at hn
        by_cases hd1 : c1.isDigit = true
        · rw [if_pos hd1] at hn
          simp only [pyDigitsVal] at hn
          by_cases hd2 : c2.isDigit = true
          · rw [if_pos hd2] at hn
            have b1 := charVal_le_of_isDigit hd1
            have b2 := charVal_le_of_isDigit hd2
            obtain rfl : 10 * charVal c1 + charVal c2 = n := Option.some.inj hn
            omega
          · rw [if_neg hd2] at hn
            by_cases hu : c2 = '_'
            · rw [if_pos hu] at hn
              cases hn
            · rw [if_neg hu] at hn
              cases hn
        · rw [if_neg hd1] at hn
          cases hn
      | cons c3 cs3 => simp at h2

theorem dropWhile_append_one (l : List Char) (c : Char) (hc : isPyWs c = false) :
    List.dropWhile isPyWs (l ++ [c]) = List.dropWhile isPyWs l ++ [c] := by
  induction l with
  | nil => simp [List.dropWhile_cons, hc]
  | cons a l ih =>
    by_cases ha : isPyWs a = true
    · simp [List.dropWhile_cons, ha, ih]
    · simp [List.dropWhile_cons, ha]

theorem dropTrailWs_cons (c : Char) (l : List Char) (hc : isPyWs c = false) :
    dropTrailWs (c :: l) = c :: dropTrailWs l := by
  unfold dropTrailWs
  rw [List.reverse_cons, dropWhile_append_one _ _ hc, List.reverse_append]
  simp

theorem dropWhile_len_le (p : Char → Bool) (l : List Char) :
    (List.dropWhile p l).length ≤ l.length := by
  induction l with
  | nil => simp
  | cons a l ih =>
    rw [List.dropWhile_cons]
    by_cases ha : p a = true
    · rw [if_pos ha]
      exact le_trans ih (by simp)
    · rw [if_neg ha]

theorem dropTrailWs_length_le (l : List Char) : (dropTrailWs l).length ≤ l.length := by
  unfold dropTrailWs
  rw [List.length_reverse]
  exact le_trans (dropWhile_len_le _ _) (le_of_eq (List.length_reverse _))

theorem pyIntChars_plus_cons (rest : List Char) :
    pyIntChars ('+' :: rest) = (pyIntDigits (dropTrailWs rest)).map (fun n => (n : Int)) := by
  have hstrip : List.dropWhile isPyWs ('+' :: rest) = '+' :: rest := by
    rw [List.dropWhile_cons, if_neg (by decide)]
  have htrail : dropTrailWs ('+' :: rest) = '+' :: dropTrailWs rest :=
    dropTrailWs_cons _ _ (by decide)
  unfold pyIntChars
  rw [hstrip, htrail]
  rfl

theorem pyIntChars_minus_cons (rest : List Char) :
    pyIntChars ('-' :: rest) = (pyIntDigits (dropTrailWs rest)).map (fun n => -(n : Int)) := by
  have hstrip : List.dropWhile isPyWs ('-' :: rest) = '-' :: rest := by
    rw [List.dropWhile_cons, if_neg (by decide)]
  have htrail : dropTrailWs ('-' :: rest) = '-' :: dropTrailWs rest :=
    dropTrailWs_cons _ _ (by decide)
  unfold pyIntChars
  rw [hstrip, htrail]
  rfl

theorem pyIntChars_short_bound (cs : List Char) (h3 : cs.length ≤ 3)
    (hpm : cs.head? = some '+' ∨ cs.head? = some '-') (v : ℤ)
    (hv : pyIntChars cs = some v) : -99 ≤ v ∧ v ≤ 99 := by
  obtain ⟨c, rest, rfl⟩ : ∃ c r, cs = c :: r := by
    cases cs with
    | nil => simp at hpm
    | cons c r => exact ⟨c, r, rfl⟩
  have hr2 : rest.length ≤ 2 := by
    simp only [List.length_cons] at h3
    omega
  have hd2 : (dropTrailWs rest).length ≤ 2 := le_trans (dropTrailWs_length_le rest) hr2
  rcases hpm with h | h
  · have hc : c = '+' := by simpa using h
    subst hc
    rw [pyIntChars_plus_cons] at hv
    cases hn : pyIntDigits (dropTrailWs rest) with
    | none =>
      rw [hn] at hv
      simp at hv
    | some n =>
      rw [hn] at hv
      have hle := pyIntDigits_le_two _ hd2 n hn
      simp at hv
      omega
  · have hc : c = '-' := by simpa using h
    subst hc
    rw [pyIntChars_minus_cons] at hv
    cases hn : pyIntDigits (dropTrailWs rest) with
    | none =>
      rw [hn] at hv
      simp at hv
    | some n =>
      rw [hn] at hv
      have hle := pyIntDigits_le_two _ hd2 n hn
      simp at hv
      omega

theorem famAPrefixData (tz : String) :
    ("D:20230615120000" ++ tz).data =
      'D' :: ':' :: (digits14 2023 6 15 12 0 0 ++ tz.data) := rfl

/-- C6: in family-A parsing the offset substring after the 14 digits is
dispatched exactly as: empty → zero hour offset; leading `Z` → zero hour
offset; leading `+` or `-` → Python `int()` of the first three characters
gives the hour count (failure → empty output); any other non-empty shape →
empty output.  Stated on the valid timestamp 2023-06-15 12:00:00. -/
theorem c6_offset_dispatch :
    (convert_to_human_readable_date "D:20230615120000" = .ok "2023-06-15")
  ∧ (∀ tz : String, tz.data.head? = some 'Z' →
      convert_to_human_readable_date ("D:20230615120000" ++ tz) = .ok "2023-06-15")
  ∧ (∀ tz : String, (tz.data.head? = some '+' ∨ tz.data.head? = some '-') →
      convert_to_human_readable_date ("D:20230615120000" ++ tz) =
        match pyIntChars (tz.data.take 3) with
        | none => Except.ok ""
        | some h =>
            Except.ok (formatDate
              (ord2ymd ((tsSecs 2023 6 15 12 0 0 - h * 3600).toNat / 86400 + 1)).1
              (ord2ymd ((tsSecs 2023 6 15 12 0 0 - h * 3600).toNat / 86400 + 1)).2.1
              (ord2ymd ((tsSecs 2023 6 15 12 0 0 - h * 3600).toNat / 86400 + 1)).2.2))
  ∧ (∀ tz : String, tz.data ≠ [] → ¬tz.data.head? = some 'Z' →
      ¬(tz.data.head? = some '+' ∨ tz.data.head? = some '-') →
      convert_to_human_readable_date ("D:20230615120000" ++ tz) = .ok "") := by
  refine ⟨by decide, ?_, ?_, ?_⟩
  · intro tz hZ
    unfold convert_to_human_readable_date
    rw [famAPrefixData]
    rw [convertChars_famA 2023 6 15 12 0 0 (by decide) (by decide) (by decide) (by decide)]
    rw [parseHoursOffset_Z tz.data hZ]
    dsimp only
    rw [if_pos (by decide)]
    decide
  · intro tz hpm
    unfold convert_to_human_readable_date
    rw [famAPrefixData]
    rw [convertChars_famA 2023 6 15 12 0 0 (by decide) (by decide) (by decide) (by decide)]
    rw [parseHoursOffset_pm tz.data hpm]
    cases ho : pyIntChars (tz.data.take 3) with
    | none => rfl
    | some h =>
      dsimp only
      have hpm3 : (tz.data.take 3).head? = some '+' ∨ (tz.data.take 3).head? = some '-' := by
        cases htz : tz.data with
        | nil =>
          rw [htz] at hpm
          simp at hpm
        | cons c r =>
          rw [htz] at hpm
          simpa using hpm
      have hlen : (tz.data.take 3).length ≤ 3 := by
        rw [List.length_take]
        exact min_le_left _ _
      obtain ⟨hb1, hb2⟩ := pyIntChars_short_bound _ hlen hpm3 h ho
      have ht : tsSecs 2023 6 15 12 0 0 = 63822427200 := by decide
      have hs : (secsMax : ℤ) = 315537897599 := by decide
      have hcond : 0 ≤ tsSecs 2023 6 15 12 0 0 - h * 3600 ∧
          tsSecs 2023 6 15 12 0 0 - h * 3600 ≤ (secsMax : ℤ) := by
        rw [ht, hs]
        omega
      rw [if_pos hcond]
  · intro tz hne hz hpm
    unfold convert_to_human_readable_date
    rw [famAPrefixData]
    rw [convertChars_famA 2023 6 15 12 0 0 (by decide) (by decide) (by decide) (by decide)]
    rw [parseHoursOffset_other tz.data hne hz hpm]

theorem c6_witness :
    (convert_to_human_readable_date ("D:20230615120000" ++ "Z0500") = .ok "2023-06-15")
  ∧ (convert_to_human_readable_date ("D:20230615120000" ++ "+05") = .ok "2023-06-15")
  ∧ (convert_to_human_readable_date ("D:20230615120000" ++ "-13") = .ok "2023-06-16")
  ∧ (convert_to_human_readable_date ("D:20230615120000" ++ "+ab") = .ok "")
  ∧ (convert_to_human_readable_date ("D:20230615120000" ++ "UTC") = .ok "") := by
  refine ⟨?_, ?_, ?_, ?_, ?_⟩
  · exact c6_offset_dispatch.2.1 "Z0500" (by decide)
  · rw [c6_offset_dispatch.2.2.1 "+05" (Or.inl (by decide))]
    decide
  · rw [c6_offset_dispatch.2.2.1 "-13" (Or.inr (by decide))]
    decide
  · rw [c6_offset_dispatch.2.2.1 "+ab" (Or.inl (by decide))]
    decide
  · exact c6_offset_dispatch.2.2.2 "UTC" (by decide) (by decide) (by decide)

theorem daysInMonth_le (y m : ℕ) : daysInMonth y m ≤ 31 := by
  unfold daysInMonth
  split_ifs <;> simp

theorem strptimeYmdHms_valid (cs : List Char) (y m d H Mi S : ℕ)
    (h : strptimeYmdHms cs = some (y, m, d, H, Mi, S)) :
    ValidDate y m d ∧ H ≤ 23 ∧ Mi ≤ 59 ∧ S ≤ 59 := by
  unfold strptimeYmdHms at h
  cases hm : matchYmdHms cs with
  | none =>
    rw [hm] at h
    cases h
  | some t =>
    obtain ⟨y0, m0, d0, H0, Mi0, S0⟩ := t
    rw [hm] at h
    dsimp only at h
    by_cases hc : ValidDate y0 m0 d0 ∧ H0 ≤ 23 ∧ Mi0 ≤ 59 ∧ S0 ≤ 59
    · rw [if_pos hc] at h
      simp only [Option.some.injEq, Prod.mk.injEq] at h
      obtain ⟨rfl, rfl, rfl, rfl, rfl, rfl⟩ := h
      exact hc
    · rw [if_neg hc] at h
      cases h

theorem strptimeFamB_valid (cs : List Char) (y m d H Mi S : ℕ)
    (h : strptimeFamB cs = some (y, m, d, H, Mi, S)) :
    ValidDate y m d ∧ H ≤ 23 ∧ Mi ≤ 59 ∧ S ≤ 59 := by
  unfold strptimeFamB at h
  cases hm : matchFamB cs with
  | none =>
    rw [hm] at h
    cases h
  | some t =>
    obtain ⟨y0, m0, d0, H0, Mi0, S0⟩ := t
    rw [hm] at h
    dsimp only at h
    by_cases hc : ValidDate y0 m0 d0 ∧ H0 ≤ 23 ∧ Mi0 ≤ 59 ∧ S0 ≤ 59
    · rw [if_pos hc] at h
      simp only [Option.some.injEq, Prod.mk.injEq] at h
      obtain ⟨rfl, rfl, rfl, rfl, rfl, rfl⟩ := h
      exact hc
    · rw [if_neg hc] at h
      cases h

theorem digitChar_ne_zero (k : ℕ) (h1 : 1 ≤ k) (h9 : k ≤ 9) : ¬digitChar k = '0' := by
  interval_cases k <;> decide

theorem matchesYMD_formatDate (y m d : ℕ) (hy1 : 1000 ≤ y) (hy2 : y ≤ 9999)
    (hm : m ≤ 99) (hd : d ≤ 99) : matchesYMD (formatDate y m d) = true := by
  have hq1 : 1 ≤ y / 1000 := by omega
  have hq9 : y / 1000 ≤ 9 := by omega
  have hstop : (pad4Chars y).dropWhile (· = '0') = pad4Chars y := by
    unfold pad4Chars
    rw [List.dropWhile_cons, if_neg (by simpa using digitChar_ne_zero _ hq1 hq9)]
  have d1 : (digitChar (y / 1000)).isDigit = true := digitChar_isDigit hq9
  have d2 : (digitChar (y / 100 % 10)).isDigit = true := digitChar_isDigit (by omega)
  have d3 : (digitChar (y / 10 % 10)).isDigit = true := digitChar_isDigit (by omega)
  have d4 : (digitChar (y % 10)).isDigit = true := digitChar_isDigit (by omega)
  have d5 : (digitChar (m / 10)).isDigit = true := digitChar_isDigit (by omega)
  have d6 : (digitChar (m % 10)).isDigit = true := digitChar_isDigit (by omega)
  have d7 : (digitChar (d / 10)).isDigit = true := digitChar_isDigit (by omega)
  have d8 : (digitChar (d % 10)).isDigit = true := digitChar_isDigit (by omega)
  show matchesYMD ⟨formatDateChars y m d⟩ = true
  unfold formatDateChars
  rw [hstop]
  unfold pad4Chars pad2Chars matchesYMD
  dsimp only
  simp [d1, d2, d3, d4, d5, d6, d7, d8]

theorem matchesYMD_short (X : List Char) (hX : X.length ≤ 3) (e f g h : Char) :
    matchesYMD ⟨X ++ '-' :: [e, f] ++ '-' :: [g, h]⟩ = false := by
  cases X with
  | nil => rfl
  | cons a X =>
    cases X with
    | nil => rfl
    | cons b X =>
      cases X with
      | nil => rfl
      | cons c X =>
        cases X with
        | nil => rfl
        | cons dd X => simp at hX

theorem formatDate_small_not_ymd (y m d : ℕ) (hy : y ≤ 999) :
    matchesYMD (formatDate y m d) = false := by
  have hq : y / 1000 = 0 := by omega
  have hdw : (pad4Chars y).dropWhile (· = '0') =
      List.dropWhile (· = '0')
        [digitChar (y / 100 % 10), digitChar (y / 10 % 10), digitChar (y % 10)] := by
    unfold pad4Chars
    rw [hq, List.dropWhile_cons, if_pos (by decide)]
  show matchesYMD ⟨formatDateChars y m d⟩ = false
  unfold formatDateChars pad2Chars
  rw [hdw]
  exact matchesYMD_short _ (le_trans (dropWhile_len_le _ _) (by simp)) _ _ _ _

/-- C7: every non-empty output of `convert_to_human_readable_date` is the
glibc `%Y-%m-%d` rendering of a valid calendar date — two-digit zero-padded
month and day — but the year is printed unpadded, so the output matches the
ten-character `YYYY-MM-DD` pattern exactly when the year is at least 1000;
for earlier years the output is shorter than `YYYY-MM-DD`. -/
theorem c7_output_shape (s r : String) (h : convert_to_human_readable_date s = .ok r) :
    r = "" ∨ ∃ y m d, ValidDate y m d ∧ r = formatDate y m d ∧
      (matchesYMD r = true ↔ 1000 ≤ y) := by
  unfold convert_to_human_readable_date convertChars at h
  by_cases h0 : s.data = []
  · rw [if_pos h0] at h
    injection h with h1
    exact Or.inl h1.symm
  · rw [if_neg h0] at h
    by_cases hD : s.data.take 2 = ['D', ':']
    · rw [if_pos hD] at h
      dsimp only at h
      cases hp : strptimeYmdHms ((s.data.drop 2).take 14) with
      | none =>
        rw [hp] at h
        injection h with h1
        exact Or.inl h1.symm
      | some t =>
        obtain ⟨y, m, d, H, Mi, S⟩ := t
        rw [hp] at h
        dsimp only at h
        obtain ⟨hvd, hH, hM, hS⟩ := strptimeYmdHms_valid _ _ _ _ _ _ _ hp
        cases hoff : parseHoursOffset ((s.data.drop 2).drop 14) with
        | none =>
          rw [hoff] at h
          injection h with h1
          exact Or.inl h1.symm
        | some hOff =>
          rw [hoff] at h
          dsimp only at h
          by_cases hrange :
              0 ≤ (((ymd2ord y m d - 1) * 86400 + (H * 3600 + Mi * 60 + S) : ℕ) : Int) -
                  hOff * 3600 ∧
              (((ymd2ord y m d - 1) * 86400 + (H * 3600 + Mi * 60 + S) : ℕ) : Int) -
                  hOff * 3600 ≤ (secsMax : Int)
          · rw [if_pos hrange] at h
            injection h with h1
            set n :=
              ((((ymd2ord y m d - 1) * 86400 + (H * 3600 + Mi * 60 + S) : ℕ) : Int) -
                hOff * 3600).toNat / 86400 + 1 with hn
            have hnmax : n ≤ maxOrd := by
              have ht2 := hrange.2
              have htn :
                  ((((ymd2ord y m d - 1) * 86400 + (H * 3600 + Mi * 60 + S) : ℕ) : Int) -
                    hOff * 3600).toNat ≤ secsMax := Int.toNat_le.mpr ht2
              have hsm : secsMax = 315537897599 := rfl
              have hmo : maxOrd = 3652059 := rfl
              rw [hn]
              omega
            obtain ⟨hvo, _⟩ := ord2ymd_spec n (by omega) hnmax
            right
            refine ⟨(ord2ymd n).1, (ord2ymd n).2.1, (ord2ymd n).2.2, hvo, h1.symm, ?_⟩
            obtain ⟨hy1, hy2, hm1, hm2, hd1, hd2⟩ := hvo
            have hd31 : (ord2ymd n).2.2 ≤ 31 := le_trans hd2 (daysInMonth_le _ _)
            constructor
            · intro hmy
              by_contra hlt
              rw [h1.symm, formatDate_small_not_ymd _ _ _ (by omega)] at hmy
              cases hmy
            · intro hy1000
              rw [h1.symm]
              exact matchesYMD_formatDate _ _ _ hy1000 hy2 (by omega) (by omega)
          · rw [if_neg hrange] at h
            cases h
    · rw [if_neg hD] at h
      by_cases hlen : 20 < s.data.length
      · rw [if_pos hlen] at h
        cases hb : strptimeFamB s.data with
        | none =>
          rw [hb] at h
          injection h with h1
          exact Or.inl h1.symm
        | some t =>
          obtain ⟨y, m, d, H, Mi, S⟩ := t
          rw [hb] at h
          dsimp only at h
          injection h with h1
          obtain ⟨hvd, _, _, _⟩ := strptimeFamB_valid _ _ _ _ _ _ _ hb
          right
          refine ⟨y, m, d, hvd, h1.symm, ?_⟩
          obtain ⟨hy1, hy2, hm1, hm2, hd1, hd2⟩ := hvd
          have hd31 : d ≤ 31 := le_trans hd2 (daysInMonth_le _ _)
          constructor
          · intro hmy
            by_contra hlt
            rw [h1.symm, formatDate_small_not_ymd _ _ _ (by omega)] at hmy
            cases hmy
          · intro hy1000
            rw [h1.symm]
            exact matchesYMD_formatDate _ _ _ hy1000 hy2 (by omega) (by omega)
      · rw [if_neg hlen] at h
        injection h with h1
        exact Or.inl h1.symm

/-- C7 counterexample: a family-A input whose shifted date falls in year
999 produces `"999-12-31"`, a nine-character output that does not match
the zero-padded `YYYY-MM-DD` pattern the claim promises. -/
theorem c7_counterexample_unpadded_year :
    convert_to_human_readable_date "D:10000101000000+01" = .ok "999-12-31" ∧
    matchesYMD "999-12-31" = false := by
  constructor
  · decide
  · decide

theorem c7_witness :
    ("2023-06-15" : String) = "" ∨ ∃ y m d, ValidDate y m d ∧
      ("2023-06-15" : String) = formatDate y m d ∧
      (matchesYMD "2023-06-15" = true ↔ 1000 ≤ y) :=
  c7_output_shape "D:20230615120000" "2023-06-15" (by decide)

theorem pyLt_irrefl (a : String) : pyLt a a = false := strLtB_irrefl a.data

theorem pyLt_trans (a b c : String) (h1 : pyLt a b = true) (h2 : pyLt b c = true) :
    pyLt a c = true := strLtB_trans a.data b.data c.data h1 h2

theorem pyLt_connex (a b : String) (h : pyLt a b = false) : pyLt b a = true ∨ a = b := by
  rcases strLtB_connex a.data b.data h with h2 | h2
  · exact Or.inl h2
  · right
    cases a
    cases b
    exact congrArg String.mk h2

theorem filterMap_some_eq_map {α β : Type} (g : α → β) (l : List α) :
    l.filterMap (fun x => some (g x)) = l.map g := by
  induction l with
  | nil => rfl
  | cons a l ih => simp [List.filterMap_cons, ih]

theorem countP_finRange_get {α : Type} (l : List α) (p : α → Bool) :
    (List.finRange l.length).countP (fun i => p (l.get i)) = l.countP p := by
  conv_rhs => rw [← List.finRange_map_get l]
  rw [List.countP_map]
  rfl

theorem countP_rank_perm (n : ℕ) (Q : Fin n → Bool) (P : Fin n → Fin n → Bool)
    (hirr : ∀ i, P i i = false)
    (htrans : ∀ i j k, P i j = true → P j k = true → P i k = true)
    (htot : ∀ i j, Q i = true → Q j = true → i ≠ j → P i j = true ∨ P j i = true)
    (hgrp : ∀ i j, Q i = true → P i j = true → Q j = true) :
    (((List.finRange n).filter Q).map
        (fun i => 1 + (List.finRange n).countP (P i))).Perm
      (List.range' 1 ((List.finRange n).countP Q)) := by
  have hcnt : ∀ p : Fin n → Bool,
      (List.finRange n).countP p = ((List.finRange n).filter p).length :=
    fun p => List.countP_eq_length_filter _ _
  have hndf : ∀ p : Fin n → Bool, ((List.finRange n).filter p).Nodup :=
    fun p => (List.nodup_finRange n).filter p
  -- strictly-before sets grow along the strictly-before relation
  have key1 : ∀ i j, P i j = true →
      ((List.finRange n).filter (P j)).length < ((List.finRange n).filter (P i)).length := by
    intro i j hij
    have hsubset : ((List.finRange n).filter (P j)) ⊆ ((List.finRange n).filter (P i)) := by
      intro k hk
      rw [List.mem_filter] at hk ⊢
      exact ⟨List.mem_finRange k, htrans i j k hij hk.2⟩
    have hjLi : j ∈ (List.finRange n).filter (P i) :=
      List.mem_filter.mpr ⟨List.mem_finRange j, hij⟩
    have hjLj : j ∉ (List.finRange n).filter (P j) := by
      intro hmem
      rw [List.mem_filter] at hmem
      rw [hirr j] at hmem
      exact Bool.false_ne_true hmem.2
    have hnd : (j :: (List.finRange n).filter (P j)).Nodup :=
      List.nodup_cons.mpr ⟨hjLj, hndf (P j)⟩
    have hsub2 : (j :: (List.finRange n).filter (P j)) ⊆ (List.finRange n).filter (P i) := by
      intro k hk
      rcases List.mem_cons.mp hk with rfl | hk
      · exact hjLi
      · exact hsubset hk
    have hlen := (List.subperm_of_subset hnd hsub2).length_le
    simpa using hlen
  -- each row is outranked only by other rows of its own group
  have bound : ∀ i, Q i = true →
      ((List.finRange n).filter (P i)).length < ((List.finRange n).filter Q).length := by
    intro i hQi
    have hsubset : ((List.finRange n).filter (P i)) ⊆ ((List.finRange n).filter Q) := by
      intro k hk
      rw [List.mem_filter] at hk ⊢
      exact ⟨List.mem_finRange k, hgrp i k hQi hk.2⟩
    have hiS : i ∈ (List.finRange n).filter Q :=
      List.mem_filter.mpr ⟨List.mem_finRange i, hQi⟩
    have hiLi : i ∉ (List.finRange n).filter (P i) := by
      intro hmem
      rw [List.mem_filter] at hmem
      rw [hirr i] at hmem
      exact Bool.false_ne_true hmem.2
    have hnd : (i :: (List.finRange n).filter (P i)).Nodup :=
      List.nodup_cons.mpr ⟨hiLi, hndf (P i)⟩
    have hsub2 : (i :: (List.finRange n).filter (P i)) ⊆ (List.finRange n).filter Q := by
      intro k hk
      rcases List.mem_cons.mp hk with rfl | hk
      · exact hiS
      · exact hsubset hk
    have hlen := (List.subperm_of_subset hnd hsub2).length_le
    simpa using hlen
  have hinj : ∀ x ∈ (List.finRange n).filter Q, ∀ y ∈ (List.finRange n).filter Q,
      1 + (List.finRange n).countP (P x) = 1 + (List.finRange n).countP (P y) → x = y := by
    intro x hx y hy hxy
    rw [List.mem_filter] at hx hy
    by_contra hne
    rcases htot x y hx.2 hy.2 hne with hP | hP
    · have := key1 x y hP
      rw [hcnt (P x), hcnt (P y)] at hxy
      omega
    · have := key1 y x hP
      rw [hcnt (P x), hcnt (P y)] at hxy
      omega
  have hnodup :
      (((List.finRange n).filter Q).map
        (fun i => 1 + (List.finRange n).countP (P i))).Nodup :=
    List.Nodup.map_on hinj (hndf Q)
  have hsubs :
      (((List.finRange n).filter Q).map (fun i => 1 + (List.finRange n).countP (P i))) ⊆
        List.range' 1 ((List.finRange n).countP Q) := by
    intro a ha
    obtain ⟨i, hi, rfl⟩ := List.mem_map.mp ha
    have hQi : Q i = true := (List.mem_filter.mp hi).2
    have hb := bound i hQi
    rw [List.mem_range'_1, hcnt Q]
    constructor
    · omega
    · rw [hcnt (P i)]
      omega
  have hsp := List.subperm_of_subset hnodup hsubs
  refine hsp.perm_of_length_le ?_
  rw [List.length_range', List.length_map, hcnt Q]

/-- Row `j` sorts strictly before row `i` in the descending,
first-appearance ranking of `groupRankFirstDesc` (and belongs to the same
`query` group). -/
def rowBefore (df : List Row) (i j : Fin df.length) : Bool :=
  (df.get j).query == (df.get i).query &&
    (pyLt (tempKey (df.get i)) (tempKey (df.get j)) ||
     (tempKey (df.get j) == tempKey (df.get i) && decide ((j : ℕ) < (i : ℕ))))

theorem groupRank_filter_eq (df : List Row) (q : String) :
    ((groupRankFirstDesc df).filter (fun r => r.query == q)).filterMap (fun r => r.rank) =
      ((List.finRange df.length).filter (fun i => (df.get i).query == q)).map
        (fun i => 1 + (List.finRange df.length).countP (rowBefore df i)) := by
  unfold groupRankFirstDesc
  rw [List.filter_map, List.filterMap_map]
  simp only [Function.comp_def]
  rw [filterMap_some_eq_map]
  rfl

theorem rowBefore_irrefl (df : List Row) (i : Fin df.length) : rowBefore df i i = false := by
  unfold rowBefore
  simp [pyLt_irrefl]

theorem rowBefore_trans (df : List Row) (i j k : Fin df.length)
    (h1 : rowBefore df i j = true) (h2 : rowBefore df j k = true) :
    rowBefore df i k = true := by
  unfold rowBefore at h1 h2 ⊢
  simp only [Bool.and_eq_true, Bool.or_eq_true, beq_iff_eq, decide_eq_true_eq] at h1 h2 ⊢
  obtain ⟨hq1, ho1⟩ := h1
  obtain ⟨hq2, ho2⟩ := h2
  refine ⟨hq2.trans hq1, ?_⟩
  rcases ho1 with hlt1 | ⟨heq1, hidx1⟩ <;> rcases ho2 with hlt2 | ⟨heq2, hidx2⟩
  · exact Or.inl (pyLt_trans _ _ _ hlt1 hlt2)
  · rw [heq2]
    exact Or.inl hlt1
  · rw [← heq1]
    exact Or.inl hlt2
  · exact Or.inr ⟨heq2.trans heq1, lt_trans hidx2 hidx1⟩

theorem rowBefore_total (df : List Row) (i j : Fin df.length) (hne : i ≠ j)
    (hq : (df.get i).query = (df.get j).query) :
    rowBefore df i j = true ∨ rowBefore df j i = true := by
  unfold rowBefore
  simp only [Bool.and_eq_true, Bool.or_eq_true, beq_iff_eq, decide_eq_true_eq]
  cases hlt : pyLt (tempKey (df.get i)) (tempKey (df.get j)) with
  | true => exact Or.inl ⟨hq.symm, Or.inl rfl⟩
  | false =>
    rcases pyLt_connex _ _ hlt with hgt | heq
    · exact Or.inr ⟨hq, Or.inl hgt⟩
    · have hij : (i : ℕ) ≠ (j : ℕ) := fun hc => hne (Fin.ext hc)
      rcases Nat.lt_or_ge (j : ℕ) (i : ℕ) with hj | hj
      · exact Or.inl ⟨hq.symm, Or.inr ⟨heq.symm, hj⟩⟩
      · exact Or.inr ⟨hq, Or.inr ⟨heq, by omega⟩⟩

theorem rowBefore_query (df : List Row) (i j : Fin df.length)
    (h : rowBefore df i j = true) : (df.get j).query = (df.get i).query := by
  unfold rowBefore at h
  simp only [Bool.and_eq_true, beq_iff_eq] at h
  exact h.1

/-- C5: after `rank_dataframe`, the multiset of `rank` values carried by
the rows of any `query` group is exactly `{1, …, n}` for `n` the number of
rows of that group — ranks are unique and contiguous from 1, and every
group restarts at 1 — for every input table. -/
theorem c5_rank_bijection_per_group (df : List Row) (q : String) :
    (((rank_dataframe df).filter (fun r => r.query == q)).filterMap (fun r => r.rank)).Perm
      (List.range' 1 (df.countP (fun r => r.query == q))) := by
  have h1 : ((rank_dataframe df).filter (fun r => r.query == q)).filterMap (fun r => r.rank) =
      ((groupRankFirstDesc (withTemp df)).filter (fun r => r.query == q)).filterMap
        (fun r => r.rank) := by
    unfold rank_dataframe dropTempCol
    rw [List.filter_map, List.filterMap_map]
    simp only [Function.comp_def]
  rw [h1, groupRank_filter_eq]
  have hcq : (List.finRange (withTemp df).length).countP
      (fun i => ((withTemp df).get i).query == q) = df.countP (fun r => r.query == q) := by
    rw [countP_finRange_get (withTemp df) (fun r => r.query == q)]
    unfold withTemp
    rw [List.countP_map]
    rfl
  rw [← hcq]
  have htot2 : ∀ i j : Fin (withTemp df).length,
      (((withTemp df).get i).query == q) = true → (((withTemp df).get j).query == q) = true →
      i ≠ j →
      rowBefore (withTemp df) i j = true ∨ rowBefore (withTemp df) j i = true := by
    intro i j hi hj hne
    simp only [beq_iff_eq] at hi hj
    exact rowBefore_total _ i j hne (hi.trans hj.symm)
  have hgrp2 : ∀ i j : Fin (withTemp df).length,
      (((withTemp df).get i).query == q) = true → rowBefore (withTemp df) i j = true →
      (((withTemp df).get j).query == q) = true := by
    intro i j hi hb
    simp only [beq_iff_eq] at hi ⊢
    exact (rowBefore_query _ i j hb).trans hi
  exact countP_rank_perm (withTemp df).length
    (fun i => ((withTemp df).get i).query == q) (rowBefore (withTemp df))
    (rowBefore_irrefl _) (rowBefore_trans _) htot2 hgrp2

theorem pyLt_asymm (a b : String) (h : pyLt a b = true) : pyLt b a = false :=
  strLtB_asymm a.data b.data h

theorem pyLt_empty_lt (s : String) (h : ¬s = "") : pyLt "" s = true := by
  cases s with
  | mk data =>
    cases data with
    | nil => exact absurd rfl h
    | cons c cs => rfl

theorem tempKey_of_temp (r : Row) (h : r.temp_creation_date = some (fillKey r)) :
    tempKey r = fillKey r := by
  unfold tempKey
  rw [h]
  rfl

theorem fillKey_none (r : Row) (h : r.creation_date = none) : fillKey r = "9999-12-31" := by
  unfold fillKey
  rw [h]
  rfl

theorem fillKey_some (r : Row) (s : String) (h : r.creation_date = some s) : fillKey r = s := by
  unfold fillKey
  rw [h]
  rfl

theorem withTemp_mem_temp (df : List Row) (r : Row) (h : r ∈ withTemp df) :
    r.temp_creation_date = some (fillKey r) := by
  unfold withTemp at h
  obtain ⟨r0, hr0, rfl⟩ := List.mem_map.mp h
  rfl

theorem withTemp_mem_orig (df : List Row) (r : Row) (h : r ∈ withTemp df) :
    ∃ r0 ∈ df, r.creation_date = r0.creation_date ∧ r.query = r0.query := by
  unfold withTemp at h
  obtain ⟨r0, hr0, rfl⟩ := List.mem_map.mp h
  exact ⟨r0, hr0, rfl, rfl⟩

theorem countP_or_disjoint {α : Type} (l : List α) (p q : α → Bool)
    (hd : ∀ a ∈ l, p a = true → q a = false) :
    l.countP (fun a => p a || q a) = l.countP p + l.countP q := by
  induction l with
  | nil => rfl
  | cons a l ih =>
    have hda := hd a (List.mem_cons_self a l)
    have ihl := ih (fun x hx => hd x (List.mem_cons_of_mem a hx))
    rw [List.countP_cons, List.countP_cons, List.countP_cons, ihl]
    cases hp : p a <;> cases hq : q a
    · simp [hp, hq]
    · simp [hp, hq]
      omega
    · simp [hp, hq]
      omega
    · rw [hda hp] at hq
      cases hq

theorem rowBefore_missing_char (df2 : List Row) (q : String) (i j : Fin df2.length)
    (Ht : ∀ r ∈ df2, r.temp_creation_date = some (fillKey r))
    (Hd : ∀ r ∈ df2, ∀ s, r.creation_date = some s → pyLt s "9999-12-31" = true)
    (hqi : (df2.get i).query = q) (hmi : (df2.get i).creation_date = none) :
    rowBefore df2 i j =
      (((df2.get j).query == q) && (df2.get j).creation_date.isNone &&
        decide ((j : ℕ) < (i : ℕ))) := by
  have hmemi : df2.get i ∈ df2 := List.get_mem df2 i.1 i.2
  have hmemj : df2.get j ∈ df2 := List.get_mem df2 j.1 j.2
  have hki : tempKey (df2.get i) = "9999-12-31" := by
    rw [tempKey_of_temp _ (Ht _ hmemi), fillKey_none _ hmi]
  unfold rowBefore
  rw [hki, hqi]
  cases hcj : (df2.get j).creation_date with
  | none =>
    have hkj : tempKey (df2.get j) = "9999-12-31" := by
      rw [tempKey_of_temp _ (Ht _ hmemj), fillKey_none _ hcj]
    rw [hkj]
    simp [pyLt_irrefl]
  | some s =>
    have hkj : tempKey (df2.get j) = s := by
      rw [tempKey_of_temp _ (Ht _ hmemj), fillKey_some _ _ hcj]
    have hds := Hd _ hmemj s hcj
    have h1 : pyLt "9999-12-31" s = false := pyLt_asymm _ _ hds
    have h2 : ¬s = "9999-12-31" := by
      intro hc
      rw [hc, pyLt_irrefl] at hds
      cases hds
    rw [hkj]
    simp [h1, h2]

theorem rowBefore_empty_char (df2 : List Row) (q : String) (i j : Fin df2.length)
    (Ht : ∀ r ∈ df2, r.temp_creation_date = some (fillKey r))
    (hqi : (df2.get i).query = q) (hmi : (df2.get i).creation_date = some "") :
    rowBefore df2 i j =
      (((df2.get j).query == q) &&
        (!((df2.get j).creation_date == some "") ||
         (((df2.get j).creation_date == some "") && decide ((j : ℕ) < (i : ℕ))))) := by
  have hmemi : df2.get i ∈ df2 := List.get_mem df2 i.1 i.2
  have hmemj : df2.get j ∈ df2 := List.get_mem df2 j.1 j.2
  have hki : tempKey (df2.get i) = "" := by
    rw [tempKey_of_temp _ (Ht _ hmemi), fillKey_some _ _ hmi]
  unfold rowBefore
  rw [hki, hqi]
  cases hcj : (df2.get j).creation_date with
  | none =>
    have hkj : tempKey (df2.get j) = "9999-12-31" := by
      rw [tempKey_of_temp _ (Ht _ hmemj), fillKey_none _ hcj]
    rw [hkj]
    simp [pyLt_empty_lt "9999-12-31" (by decide)]
  | some s =>
    have hkj : tempKey (df2.get j) = s := by
      rw [tempKey_of_temp _ (Ht _ hmemj), fillKey_some _ _ hcj]
    rw [hkj]
    by_cases hs : s = ""
    · subst hs
      simp [pyLt_irrefl]
    · simp [pyLt_empty_lt s hs, hs]

theorem rank_filter_eq (df : List Row) (p : Row → Bool)
    (hp1 : ∀ (r : Row) (v : Option ℕ), p { r with rank := v } = p r)
    (hp2 : ∀ (r : Row) (v : Option String), p { r with temp_creation_date := v } = p r) :
    ((rank_dataframe df).filter p).filterMap (fun r => r.rank) =
      ((List.finRange (withTemp df).length).filter (fun i => p ((withTemp df).get i))).map
        (fun i => 1 + (List.finRange (withTemp df).length).countP
          (rowBefore (withTemp df) i)) := by
  unfold rank_dataframe dropTempCol
  rw [List.filter_map, List.filterMap_map]
  simp only [Function.comp_def]
  rw [List.filter_congr (fun r _ => hp2 r none)]
  unfold groupRankFirstDesc
  rw [List.filter_map, List.filterMap_map]
  simp only [Function.comp_def]
  rw [List.filter_congr (fun i _ => hp1 ((withTemp df).get i) _)]
  rw [filterMap_some_eq_map]
  rfl

theorem rank_dataframe_frame (df : List Row) :
    (rank_dataframe df).map (fun r => (r.query, r.creation_date)) =
      df.map (fun r => (r.query, r.creation_date)) := by
  have h1 : (withTemp df).map (fun r => (r.query, r.creation_date)) =
      df.map (fun r => (r.query, r.creation_date)) := by
    unfold withTemp
    rw [List.map_map]
    exact List.map_congr_left (fun r _ => rfl)
  unfold rank_dataframe dropTempCol
  rw [List.map_map]
  unfold groupRankFirstDesc
  rw [List.map_map]
  rw [← h1]
  conv_rhs => rw [← List.finRange_map_get (withTemp df), List.map_map]
  exact List.map_congr_left (fun i _ => rfl)

theorem firstSeen_perm (n : ℕ) (C : Fin n → Bool) :
    (((List.finRange n).filter C).map
      (fun (i : Fin n) => 1 + (List.finRange n).countP
        (fun j => C j && decide ((j : ℕ) < (i : ℕ))))).Perm
      (List.range' 1 ((List.finRange n).countP C)) := by
  refine countP_rank_perm n C (fun i j => C j && decide ((j : ℕ) < (i : ℕ))) ?_ ?_ ?_ ?_
  · intro i
    simp
  · intro i j k h1 h2
    simp only [Bool.and_eq_true, decide_eq_true_eq] at h1 h2 ⊢
    exact ⟨h2.1, lt_trans h2.2 h1.2⟩
  · intro i j hQi hQj hne
    have hij : (i : ℕ) ≠ (j : ℕ) := fun hc => hne (Fin.ext hc)
    simp only [Bool.and_eq_true, decide_eq_true_eq]
    rcases Nat.lt_or_ge (j : ℕ) (i : ℕ) with h | h
    · exact Or.inl ⟨hQj, h⟩
    · exact Or.inr ⟨hQi, by omega⟩
  · intro i j hQi hP
    simp only [Bool.and_eq_true] at hP
    exact hP.1

theorem countP_congr2 {α : Type} (l : List α) (p q : α → Bool) (h : ∀ a ∈ l, p a = q a) :
    l.countP p = l.countP q := by
  induction l with
  | nil => rfl
  | cons a l ih =>
    rw [List.countP_cons, List.countP_cons, h a (List.mem_cons_self a l),
      ih (fun x hx => h x (List.mem_cons_of_mem a hx))]

theorem rank_missing_ranks (df : List Row) (q : String)
    (H : ∀ r ∈ df, r.creation_date.elim true (fun s => pyLt s "9999-12-31") = true) :
    (((rank_dataframe df).filter
        (fun r => r.query == q && r.creation_date.isNone)).filterMap (fun r => r.rank)).Perm
      (List.range' 1 (df.countP (fun r => r.query == q && r.creation_date.isNone))) := by
  have Hd2 : ∀ r ∈ withTemp df, ∀ s, r.creation_date = some s →
      pyLt s "9999-12-31" = true := by
    intro r hr s hs
    obtain ⟨r0, hr0, hcr, _⟩ := withTemp_mem_orig df r hr
    have hh := H r0 hr0
    rw [← hcr, hs] at hh
    simpa using hh
  rw [rank_filter_eq df (fun r => r.query == q && r.creation_date.isNone)
    (fun r v => rfl) (fun r v => rfl)]
  have hmapc : ∀ i ∈ (List.finRange (withTemp df).length).filter
      (fun i => ((withTemp df).get i).query == q &&
        ((withTemp df).get i).creation_date.isNone),
      1 + (List.finRange (withTemp df).length).countP (rowBefore (withTemp df) i) =
      1 + (List.finRange (withTemp df).length).countP
        (fun j => (((withTemp df).get j).query == q &&
          ((withTemp df).get j).creation_date.isNone) && decide ((j : ℕ) < (i : ℕ))) := by
    intro i hi
    have hfi := (List.mem_filter.mp hi).2
    simp only [Bool.and_eq_true, beq_iff_eq, Option.isNone_iff_eq_none] at hfi
    congr 1
    refine countP_congr2 _ _ _ (fun j _ => ?_)
    rw [rowBefore_missing_char (withTemp df) q i j (withTemp_mem_temp df) Hd2 hfi.1 hfi.2]
  rw [List.map_congr_left hmapc]
  have hcnt : (List.finRange (withTemp df).length).countP
      (fun i => ((withTemp df).get i).query == q &&
        ((withTemp df).get i).creation_date.isNone) =
      df.countP (fun r => r.query == q && r.creation_date.isNone) := by
    rw [countP_finRange_get (withTemp df) (fun r => r.query == q && r.creation_date.isNone)]
    unfold withTemp
    rw [List.countP_map]
    rfl
  rw [← hcnt]
  exact firstSeen_perm (withTemp df).length
    (fun i => ((withTemp df).get i).query == q &&
      ((withTemp df).get i).creation_date.isNone)

theorem bool_empty_distrib : ∀ a e d : Bool,
    (a && (!e || (e && d))) = ((a && !e) || ((a && e) && d)) := by decide

theorem bool_empty_disjoint : ∀ a e d : Bool,
    (a && !e) = true → ((a && e) && d) = false := by decide

theorem bool_empty_disjoint2 : ∀ a e : Bool, (a && !e) = true → (a && e) = false := by decide

theorem bool_cover : ∀ a e : Bool, ((a && !e) || (a && e)) = a := by decide

theorem rank_empty_ranks (df : List Row) (q : String) :
    (((rank_dataframe df).filter
        (fun r => r.query == q && (r.creation_date == some ""))).filterMap
          (fun r => r.rank)).Perm
      (List.range'
        (df.countP (fun r => r.query == q) -
          df.countP (fun r => r.query == q && (r.creation_date == some "")) + 1)
        (df.countP (fun r => r.query == q && (r.creation_date == some "")))) := by
  rw [rank_filter_eq df (fun r => r.query == q && (r.creation_date == some ""))
    (fun r v => rfl) (fun r v => rfl)]
  have hmapc : ∀ i ∈ (List.finRange (withTemp df).length).filter
      (fun i => ((withTemp df).get i).query == q &&
        (((withTemp df).get i).creation_date == some "")),
      1 + (List.finRange (withTemp df).length).countP (rowBefore (withTemp df) i) =
      (List.finRange (withTemp df).length).countP
          (fun j => ((withTemp df).get j).query == q &&
            !(((withTemp df).get j).creation_date == some "")) +
        (1 + (List.finRange (withTemp df).length).countP
          (fun j => (((withTemp df).get j).query == q &&
            (((withTemp df).get j).creation_date == some "")) &&
            decide ((j : ℕ) < (i : ℕ)))) := by
    intro i hi
    have hfi := (List.mem_filter.mp hi).2
    simp only [Bool.and_eq_true, beq_iff_eq] at hfi
    have hchar : (List.finRange (withTemp df).length).countP (rowBefore (withTemp df) i) =
        (List.finRange (withTemp df).length).countP
          (fun j => (((withTemp df).get j).query == q &&
              !(((withTemp df).get j).creation_date == some "")) ||
            ((((withTemp df).get j).query == q &&
              (((withTemp df).get j).creation_date == some "")) &&
              decide ((j : ℕ) < (i : ℕ)))) := by
      refine countP_congr2 _ _ _ (fun j _ => ?_)
      rw [rowBefore_empty_char (withTemp df) q i j (withTemp_mem_temp df) hfi.1 hfi.2]
      exact bool_empty_distrib _ _ _
    rw [hchar, countP_or_disjoint _ _ _ (fun j _ hp => bool_empty_disjoint _ _ _ hp)]
    omega
  rw [List.map_congr_left hmapc]
  have hcomp : (fun (i : Fin (withTemp df).length) =>
      (List.finRange (withTemp df).length).countP
          (fun j => ((withTemp df).get j).query == q &&
            !(((withTemp df).get j).creation_date == some "")) +
        (1 + (List.finRange (withTemp df).length).countP
          (fun j => (((withTemp df).get j).query == q &&
            (((withTemp df).get j).creation_date == some "")) &&
            decide ((j : ℕ) < (i : ℕ))))) =
      (fun x => (List.finRange (withTemp df).length).countP
          (fun j => ((withTemp df).get j).query == q &&
            !(((withTemp df).get j).creation_date == some "")) + x) ∘
        (fun (i : Fin (withTemp df).length) =>
          1 + (List.finRange (withTemp df).length).countP
            (fun j => (((withTemp df).get j).query == q &&
              (((withTemp df).get j).creation_date == some "")) &&
              decide ((j : ℕ) < (i : ℕ)))) := rfl
  rw [hcomp, ← List.map_map]
  have hp := (firstSeen_perm (withTemp df).length
    (fun i => ((withTemp df).get i).query == q &&
      (((withTemp df).get i).creation_date == some ""))).map
    (fun x => (List.finRange (withTemp df).length).countP
        (fun j => ((withTemp df).get j).query == q &&
          !(((withTemp df).get j).creation_date == some "")) + x)
  rw [List.map_add_range'] at hp
  have hcntE : (List.finRange (withTemp df).length).countP
      (fun i => ((withTemp df).get i).query == q &&
        (((withTemp df).get i).creation_date == some "")) =
      df.countP (fun r => r.query == q && (r.creation_date == some "")) := by
    rw [countP_finRange_get (withTemp df)
      (fun r => r.query == q && (r.creation_date == some ""))]
    unfold withTemp
    rw [List.countP_map]
    rfl
  have hcntA : (List.finRange (withTemp df).length).countP
      (fun i => ((withTemp df).get i).query == q) =
      df.countP (fun r => r.query == q) := by
    rw [countP_finRange_get (withTemp df) (fun r => r.query == q)]
    unfold withTemp
    rw [List.countP_map]
    rfl
  have hsum : (List.finRange (withTemp df).length).countP
        (fun j => ((withTemp df).get j).query == q &&
          !(((withTemp df).get j).creation_date == some "")) +
      (List.finRange (withTemp df).length).countP
        (fun i => ((withTemp df).get i).query == q &&
          (((withTemp df).get i).creation_date == some "")) =
      (List.finRange (withTemp df).length).countP
        (fun i => ((withTemp df).get i).query == q) := by
    rw [← countP_or_disjoint (List.finRange (withTemp df).length)
      (fun j => ((withTemp df).get j).query == q &&
        !(((withTemp df).get j).creation_date == some ""))
      (fun j => ((withTemp df).get j).query == q &&
        (((withTemp df).get j).creation_date == some ""))
      (fun j _ hpj => bool_empty_disjoint2 _ _ hpj)]
    exact countP_congr2 _ _ _ (fun j _ => bool_cover _ _)
  rw [hcntE] at hp
  rw [show (List.finRange (withTemp df).length).countP
      (fun j => ((withTemp df).get j).query == q &&
        !(((withTemp df).get j).creation_date == some "")) + 1 =
      df.countP (fun r => r.query == q) -
        df.countP (fun r => r.query == q && (r.creation_date == some "")) + 1 from by
    omega] at hp
  exact hp

/-- C1: `rank_dataframe` substitutes the sentinel `"9999-12-31"` only for
missing (`NaN`) `creation_date` values — empty strings are left as they
are — and it does not change the externally visible fields.  Because the
sentinel is the maximum key and ranking is descending, rows with a missing
`creation_date` receive the FIRST (smallest) rank numbers of their group,
not the last; it is the empty-string rows that sort below every other key
and receive the last (largest) rank numbers.  Stated for inputs whose
present dates all precede the sentinel. -/
theorem c1_sentinel_and_rank_position (df : List Row) (q : String)
    (H : ∀ r ∈ df, r.creation_date.elim true (fun s => pyLt s "9999-12-31") = true) :
    ((rank_dataframe df).map (fun r => (r.query, r.creation_date)) =
      df.map (fun r => (r.query, r.creation_date)))
  ∧ (((rank_dataframe df).filter
        (fun r => r.query == q && r.creation_date.isNone)).filterMap (fun r => r.rank)).Perm
      (List.range' 1 (df.countP (fun r => r.query == q && r.creation_date.isNone)))
  ∧ (((rank_dataframe df).filter
        (fun r => r.query == q && (r.creation_date == some ""))).filterMap
          (fun r => r.rank)).Perm
      (List.range'
        (df.countP (fun r => r.query == q) -
          df.countP (fun r => r.query == q && (r.creation_date == some "")) + 1)
        (df.countP (fun r => r.query == q && (r.creation_date == some "")))) :=
  ⟨rank_dataframe_frame df, rank_missing_ranks df q H, rank_empty_ranks df q⟩

/-- C1 counterexample: one dated row and one missing-date row share a
group; the missing-date row receives rank 1 — the first rank of its group,
not the last as the claim asserts. -/
theorem c1_counterexample_missing_rank_first :
    (rank_dataframe
      [{ query := "q", creation_date := some "2023-05-01" },
       { query := "q", creation_date := none }]).map (fun r => r.rank) =
      [some 2, some 1] := by decide

theorem c1_witness :
    ((rank_dataframe
        [{ query := "q", creation_date := some "2023-05-01" },
         { query := "q", creation_date := none },
         { query := "q", creation_date := some "" }]).map
      (fun r => (r.query, r.creation_date)) =
      ([{ query := "q", creation_date := some "2023-05-01" },
        { query := "q", creation_date := none },
        { query := "q", creation_date := some "" }] : List Row).map
        (fun r => (r.query, r.creation_date)))
  ∧ (((rank_dataframe
        [{ query := "q", creation_date := some "2023-05-01" },
         { query := "q", creation_date := none },
         { query := "q", creation_date := some "" }]).filter
          (fun r => r.query == "q" && r.creation_date.isNone)).filterMap
        (fun r => r.rank)).Perm
      (List.range' 1
        (([{ query := "q", creation_date := some "2023-05-01" },
           { query := "q", creation_date := none },
           { query := "q", creation_date := some "" }] : List Row).countP
            (fun r => r.query == "q" && r.creation_date.isNone)))
  ∧ (((rank_dataframe
        [{ query := "q", creation_date := some "2023-05-01" },
         { query := "q", creation_date := none },
         { query := "q", creation_date := some "" }]).filter
          (fun r => r.query == "q" && (r.creation_date == some ""))).filterMap
        (fun r => r.rank)).Perm
      (List.range'
        (([{ query := "q", creation_date := some "2023-05-01" },
           { query := "q", creation_date := none },
           { query := "q", creation_date := some "" }] : List Row).countP
            (fun r => r.query == "q") -
          ([{ query := "q", creation_date := some "2023-05-01" },
            { query := "q", creation_date := none },
            { query := "q", creation_date := some "" }] : List Row).countP
            (fun r => r.query == "q" && (r.creation_date == some "")) + 1)
        (([{ query := "q", creation_date := some "2023-05-01" },
           { query := "q", creation_date := none },
           { query := "q", creation_date := some "" }] : List Row).countP
            (fun r => r.query == "q" && (r.creation_date == some "")))) :=
  c1_sentinel_and_rank_position
    [{ query := "q", creation_date := some "2023-05-01" },
     { query := "q", creation_date := none },
     { query := "q", creation_date := some "" }] "q" (by decide)
